import Mathlib

/-!
# TAOS ambient-light / proximity driver (`drivers/i2c/chips/taos.c`)

A shallow embedding of the measurement and calibration pipeline of the driver.

Conventions of the embedding.

* C `int` values are `Int`; unsigned values (`u8`, `u16`, `u32`) are `Nat`, and every
  store into an unsigned object of width `w` is written with an explicit `% 2^w`.
* The driver's globals are the fields of `Driver`.
* The SMBus is external.  Every bus call of a function is an input of the embedded
  function: the `s32` the call returned (negative on error).  The sensor's threshold
  registers are kept in `Driver.chip`; a word write that reports an error leaves the
  register as it was, a word write that succeeds stores the value.
* `taos_report_value` only emits input-subsystem events; it writes none of the
  driver's globals and is not part of the state transformers below.
-/

namespace Taos

/-! ## Constants -/

/-- Value of `ENODATA` in `asm/errno.h`. -/
def ENODATA : Int := 61

/-- Value of `EPERM` in `asm/errno.h`. -/
def EPERM : Int := 1

/-- The lux ceiling `TAOS_MAX_LUX`. -/
def TAOS_MAX_LUX : Nat := 65535000

/-- The milli-scale shift `TAOS_SCALE_MILLILUX`. -/
def TAOS_SCALE_MILLILUX : Nat := 3

/-- Truncation of an `s32` to a `u8`, as in `chdata[i] = i2c_smbus_read_byte(..)`. -/
def u8 (v : Int) : Nat := (v % 256).toNat

/-! ## Data model -/

/-- Modelled from the spec: `struct taos_cfg` is declared in `taos_common.h`, which is
not among the sources.  The fields are the ones `taos_probe` initialises, with the
widths of the module parameters they are initialised from (`u32` calibration target,
`u16` integration time, scale factor, gain trim and thresholds, `u8` for the rest). -/
structure taos_cfg where
  calibrate_target : Nat
  als_time : Nat
  scale_factor : Nat
  gain_trim : Nat
  filter_history : Nat
  filter_count : Nat
  gain : Nat
  prox_threshold_hi : Nat
  prox_threshold_lo : Nat
  prox_int_time : Nat
  prox_adc_time : Nat
  prox_wait_time : Nat
  prox_intr_filter : Nat
  prox_config : Nat
  prox_pulse_cnt : Nat
  prox_gain : Nat
  deriving DecidableEq, Repr

/-- Every field of a configuration record lies in the range of its C type. -/
def taos_cfg.wf (c : taos_cfg) : Prop :=
  c.calibrate_target < 2 ^ 32 ∧ c.als_time < 2 ^ 16 ∧ c.scale_factor < 2 ^ 16 ∧
  c.gain_trim < 2 ^ 16 ∧ c.filter_history < 2 ^ 8 ∧ c.filter_count < 2 ^ 8 ∧
  c.gain < 2 ^ 8 ∧ c.prox_threshold_hi < 2 ^ 16 ∧ c.prox_threshold_lo < 2 ^ 16 ∧
  c.prox_int_time < 2 ^ 8 ∧ c.prox_adc_time < 2 ^ 8 ∧ c.prox_wait_time < 2 ^ 8 ∧
  c.prox_intr_filter < 2 ^ 8 ∧ c.prox_config < 2 ^ 8 ∧ c.prox_pulse_cnt < 2 ^ 8 ∧
  c.prox_gain < 2 ^ 8

/-- Modelled from the spec: `struct taos_prox_info` is declared in `taos_common.h`,
which is not among the sources: a 16-bit clear reading, a 16-bit proximity reading
and the near/far event flag. -/
structure taos_prox_info where
  prox_clear : Nat
  prox_data : Nat
  prox_event : Int
  deriving DecidableEq, Repr

/-- The `struct time_scale_factor` of the lux engine. -/
structure time_scale_factor where
  numerator : Nat
  denominator : Nat
  saturation : Nat
  deriving DecidableEq, Repr

/-- One row `struct lux_data` of the ratio table. -/
structure lux_data where
  ratio : Nat
  clear : Nat
  ir : Nat
  deriving DecidableEq, Repr

/-- The gain table `taos_triton_gain_table`. -/
def taos_triton_gain_table : List Nat := [1, 8, 16, 120]

/-- The ratio table `TritonFN_lux_data`, the all-zero sentinel last. -/
def TritonFN_lux_data : List lux_data :=
  [⟨9830, 8320, 15360⟩, ⟨12452, 10554, 22797⟩, ⟨14746, 6234, 11430⟩,
   ⟨17695, 3968, 6400⟩, ⟨0, 0, 0⟩]

/-- The three slots of `lux_history`, slot 0 the newest. -/
structure lux_hist where
  h0 : Int
  h1 : Int
  h2 : Int
  deriving DecidableEq, Repr

/-- Indexing `lux_history[i]`. -/
def lux_hist.get (h : lux_hist) (i : Nat) : Int :=
  match i with
  | 0 => h.h0
  | 1 => h.h1
  | _ => h.h2

/-- The sensor's 16-bit threshold registers, as last written over the bus. -/
structure Chip where
  als_maxthresh : Nat
  als_minthresh : Nat
  prx_maxthresh : Nat
  prx_minthresh : Nat
  deriving DecidableEq, Repr

/-- The globals of the driver together with the sensor's threshold registers. -/
structure Driver where
  cfg : taos_cfg
  light_on : Int
  prox_on : Int
  g_nlux : Int
  prox_cur_info : taos_prox_info
  prox_cal_info : Nat → taos_prox_info
  sat_als : Nat
  sat_prox : Nat
  TritonTime : time_scale_factor
  als_intr_threshold_hi_param : Nat
  als_intr_threshold_lo_param : Nat
  lux_history : lux_hist
  chip : Chip

/-- One register read as the driver performs it: `i2c_smbus_write_byte` selecting the
register (`sel`), then `i2c_smbus_read_byte` (`val`); both results are `s32`. -/
structure RegRead where
  sel : Int
  val : Int
  deriving DecidableEq, Repr

/-- Effect of `i2c_smbus_write_word_data` returning `ret` on a threshold register
holding `old`: the word `v` is stored unless the call reported an error. -/
def write_word (ret : Int) (old v : Nat) : Nat :=
  if ret < 0 then old else v

/-! ## Configuration store (`TAOS_IOCTL_CONFIG_GET`, `TAOS_IOCTL_CONFIG_SET`) -/

/-- The `TAOS_IOCTL_CONFIG_GET` case.  `ret` is the result of `copy_to_user` (the
number of bytes left uncopied); on success the caller receives the stored record. -/
def taos_ioctl_CONFIG_GET (s : Driver) (ret : Nat) : Int × Option taos_cfg :=
  if ret ≠ 0 then (-ENODATA, none) else (0, some s.cfg)

/-- The `TAOS_IOCTL_CONFIG_SET` case.  `arg` is what `copy_from_user` left in
`*taos_cfgp` (the caller's whole record when `ret = 0`) and `ret` its result. -/
def taos_ioctl_CONFIG_SET (s : Driver) (arg : taos_cfg) (ret : Nat) : Int × Driver :=
  let s := { s with cfg := arg }
  if ret ≠ 0 then (-ENODATA, s)
  else
    let s := if s.cfg.als_time < 50 then { s with cfg := { s.cfg with als_time := 50 } } else s
    let s := if s.cfg.als_time > 650 then { s with cfg := { s.cfg with als_time := 650 } } else s
    let tmp := (s.cfg.als_time + 25) / 50
    let s := { s with cfg := { s.cfg with als_time := (tmp * 50) % 2 ^ 16 } }
    let s := { s with sat_als := ((256 - s.cfg.prox_int_time) <<< 10) % 2 ^ 16 }
    let s := { s with sat_prox := ((256 - s.cfg.prox_adc_time) <<< 10) % 2 ^ 16 }
    (0, s)

/-! ## Temporal median filter -/

/-- The selection table `middle` of `taos_lux_filter`. -/
def middle : List Nat := [1, 0, 2, 0, 0, 2, 0, 1]

/-- The function `taos_lux_filter`: shift the sample into `lux_history`, answer
`-ENODATA` while a slot is negative, else the slot picked through `middle`. -/
def taos_lux_filter (s : Driver) (lux : Int) : Int × Driver :=
  let s := { s with lux_history := { s.lux_history with h2 := s.lux_history.h1 } }
  let s := { s with lux_history := { s.lux_history with h1 := s.lux_history.h0 } }
  let s := { s with lux_history := { s.lux_history with h0 := lux } }
  if s.lux_history.h2 < 0 ∨ s.lux_history.h1 < 0 ∨ s.lux_history.h0 < 0 then (-ENODATA, s)
  else
    let index := 0
    let index := if s.lux_history.h0 > s.lux_history.h1 then index + 4 else index
    let index := if s.lux_history.h1 > s.lux_history.h2 then index + 2 else index
    let index := if s.lux_history.h0 > s.lux_history.h2 then index + 1 else index
    (s.lux_history.get (middle.getD index 0), s)

/-! ## Register bursts -/

/-- The burst loop `for (i = 0; i < n; i++)` shared by `taos_get_lux` and
`taos_prox_poll`, from index `i` with `k` rounds left: the first negative result of a
register select is returned at once (`error`), otherwise the loop ends with the
result of the last select in `ret`. -/
def read_loop (rd : Nat → RegRead) : Nat → Nat → Int → Except Int Int
  | 0, _, ret => .ok ret
  | k + 1, i, _ =>
    if (rd i).sel < 0 then .error (rd i).sel else read_loop rd k (i + 1) (rd i).sel

/-- The byte `chdata[i]` a completed burst stored. -/
def chdata (rd : Nat → RegRead) (i : Nat) : Nat := u8 (rd i).val

/-- The 16-bit word `w = chdata[hi]; w <<= 8; w |= chdata[lo]`. -/
def chan_word (rd : Nat → RegRead) (lo hi : Nat) : Nat :=
  let w := chdata rd hi
  let w := (w <<< 8) % 2 ^ 16
  w ||| chdata rd lo

/-! ## Lux computation engine -/

/-- Bus results of one `taos_get_lux` call: the four channel-data reads and the two
threshold word writes. -/
structure LuxBus where
  ch : Nat → RegRead
  wr_max : Int
  wr_min : Int

/-- The channel swap and scaling of `taos_get_lux`: after it the first component is
the scaled `raw_clear`, the second the scaled `raw_ir` (both `u16`). -/
def lux_scale (scale_factor raw_clear raw_ir : Nat) : Nat × Nat :=
  let raw_lux := raw_ir
  let (raw_clear, raw_ir) := if raw_ir > raw_clear then (raw_lux, raw_clear) else (raw_clear, raw_ir)
  let raw_clear := (raw_clear * scale_factor) % 2 ^ 16
  let raw_ir := (raw_ir * scale_factor) % 2 ^ 16
  (raw_clear, raw_ir)

/-- The table walk `for (p = lux_tablep; p->ratio && p->ratio < ratio; p++);`.  The
table ends with the zero sentinel, so the empty case is never reached from
`TritonFN_lux_data`. -/
def lux_walk : List lux_data → Nat → lux_data
  | [], _ => ⟨0, 0, 0⟩
  | p :: rest, ratio => if p.ratio ≠ 0 ∧ p.ratio < ratio then lux_walk rest ratio else p

/-- The computing tail of `taos_get_lux` (from the channel swap to the final `return`),
which reads the configuration, the time scale behind `lux_timep` and the two raw
channel words, and writes no global: the value `taos_get_lux` returns. -/
def lux_calc (cfg : taos_cfg) (lux_timep : time_scale_factor) (raw_clear raw_ir : Nat) : Int :=
  let (raw_clear, raw_ir) := lux_scale cfg.scale_factor raw_clear raw_ir
  let dev_gain := taos_triton_gain_table.getD (cfg.gain &&& 3) 0
  if raw_clear ≥ lux_timep.saturation then TAOS_MAX_LUX
  else if raw_ir ≥ lux_timep.saturation then TAOS_MAX_LUX
  else if raw_clear = 0 then 0
  else if dev_gain = 0 ∨ dev_gain > 127 then -1
  else if lux_timep.denominator = 0 then -1
  else
    let ratio := (raw_ir <<< 15) / raw_clear
    let p := lux_walk TritonFN_lux_data ratio
    if p.ratio = 0 then 0
    else
      let lux := (((raw_clear * p.clear : Nat) : Int) - ((raw_ir * p.ir : Nat) : Int)) % 2 ^ 32
      let lux := lux.toNat
      let lux := (((lux + (lux_timep.denominator >>> 1)) % 2 ^ 32 / lux_timep.denominator)
        * lux_timep.numerator) % 2 ^ 32
      let lux := ((lux + (dev_gain >>> 1)) % 2 ^ 32) / dev_gain
      let lux := lux >>> TAOS_SCALE_MILLILUX
      let lux := if lux > TAOS_MAX_LUX then TAOS_MAX_LUX else lux
      (lux : Int)

/-- The function `taos_get_lux`: read the two channels, refresh the time scale and the
ALS interrupt window, and compute the lux value with `lux_calc`. -/
def taos_get_lux (s : Driver) (b : LuxBus) : Int × Driver :=
  match read_loop b.ch 4 0 0 with
  | .error ret => (ret, s)
  | .ok _ =>
    let tmp := (s.cfg.als_time + 25) / 50
    let s := { s with TritonTime := { s.TritonTime with numerator := 1 } }
    let s := { s with TritonTime := { s.TritonTime with denominator := tmp % 2 ^ 16 } }
    let tmp := 300 * s.cfg.als_time
    let tmp := if tmp > 65535 then 65535 else tmp
    let s := { s with TritonTime := { s.TritonTime with saturation := tmp % 2 ^ 16 } }
    let raw_clear := chan_word b.ch 0 1
    let raw_ir := chan_word b.ch 2 3
    let s := { s with als_intr_threshold_hi_param := (raw_clear + raw_clear / 5) % 2 ^ 16 }
    let s := { s with als_intr_threshold_lo_param := (raw_clear - raw_clear / 5) % 2 ^ 16 }
    let s := { s with chip := { s.chip with als_maxthresh := write_word b.wr_max s.chip.als_maxthresh s.als_intr_threshold_hi_param } }
    let s := { s with chip := { s.chip with als_minthresh := write_word b.wr_min s.chip.als_minthresh s.als_intr_threshold_lo_param } }
    (lux_calc s.cfg s.TritonTime raw_clear raw_ir, s)

/-! ## Proximity pipeline -/

/-- The function `taos_prox_poll` on the record `prxp` points to: burst-read six
registers, store the clear word, give up with `-ENODATA` when it exceeds 80% of
`sat_als`, else store the proximity word. -/
def taos_prox_poll (sat_als : Nat) (prxp : taos_prox_info) (rd : Nat → RegRead) :
    Int × taos_prox_info :=
  match read_loop rd 6 0 0 with
  | .error ret => (ret, prxp)
  | .ok ret =>
    let prxp := { prxp with prox_clear := chan_word rd 0 1 }
    if prxp.prox_clear > (sat_als * 80) / 100 then (-ENODATA, prxp)
    else
      let prxp := { prxp with prox_data := chan_word rd 4 5 }
      (ret, prxp)

/-- Bus results of one `taos_prox_work` pass: the six reads of the poll, the two
threshold word writes of the branch taken, the two threshold read-backs and the
interrupt-clear write. -/
structure ProxBus where
  poll : Nat → RegRead
  wr_max : Int
  wr_min : Int
  rd_max : Int
  rd_min : Int
  intclr : Int

/-- The function `taos_prox_work`.  The result of the poll is only logged; the
read-backs `prx_hi`, `prx_lo` and the result of the interrupt clear end in locals. -/
def taos_prox_work (s : Driver) (b : ProxBus) : Driver :=
  let s := { s with prox_cur_info := (taos_prox_poll s.sat_als s.prox_cur_info b.poll).2 }
  if s.prox_cur_info.prox_data > s.cfg.prox_threshold_hi then
    let s := { s with chip := { s.chip with prx_maxthresh := write_word b.wr_max s.chip.prx_maxthresh s.sat_prox } }
    let s := { s with chip := { s.chip with prx_minthresh := write_word b.wr_min s.chip.prx_minthresh s.cfg.prox_threshold_lo } }
    { s with prox_cur_info := { s.prox_cur_info with prox_event := 1 } }
  else if s.prox_cur_info.prox_data < s.cfg.prox_threshold_lo then
    let s := { s with chip := { s.chip with prx_maxthresh := write_word b.wr_max s.chip.prx_maxthresh s.cfg.prox_threshold_hi } }
    let s := { s with chip := { s.chip with prx_minthresh := write_word b.wr_min s.chip.prx_minthresh 0 } }
    { s with prox_cur_info := { s.prox_cur_info with prox_event := 0 } }
  else s

/-! ## Proximity calibration (`TAOS_IOCTL_PROX_CALIBRATE`) -/

/-- Locals and array of the sampling loop.  `prox_sum` and `prox_max` are C `int`s
that only ever hold sums and maxima of at most twenty 16-bit readings. -/
structure CalAcc where
  info : Nat → taos_prox_info
  prox_sum : Nat
  prox_max : Nat
  ret : Int

/-- The sampling loop `for (i = 0; i < 20; i++)` of the calibration, from index `i`
with `k` rounds left; `bus i` holds the reads of the `i`-th poll.  A failing poll
ends the call with its result (`error`, with the array as it then is). -/
def cal_loop (sat_als : Nat) (bus : Nat → Nat → RegRead) :
    Nat → Nat → CalAcc → Except (Int × (Nat → taos_prox_info)) CalAcc
  | 0, _, a => .ok a
  | k + 1, i, a =>
    let r := taos_prox_poll sat_als (a.info i) (bus i)
    let a : CalAcc := { a with info := Function.update a.info i r.2, ret := r.1 }
    if a.ret < 0 then Except.error (a.ret, a.info)
    else
      let a := { a with prox_sum := a.prox_sum + (a.info i).prox_data }
      let a := if (a.info i).prox_data > a.prox_max then
        { a with prox_max := (a.info i).prox_data } else a
      cal_loop sat_als bus k (i + 1) a

/-- The `TAOS_IOCTL_PROX_CALIBRATE` case. -/
def taos_ioctl_PROX_CALIBRATE (s : Driver) (bus : Nat → Nat → RegRead) : Int × Driver :=
  if s.prox_on = 0 then (-EPERM, s)
  else
    match cal_loop s.sat_als bus 20 0 ⟨s.prox_cal_info, 0, 0, 0⟩ with
    | .error (ret, info) => (ret, { s with prox_cal_info := info })
    | .ok a =>
      let s := { s with prox_cal_info := a.info }
      let prox_mean := a.prox_sum / 20
      let s := { s with cfg := { s.cfg with prox_threshold_hi := (prox_mean + 1500) % 2 ^ 16 } }
      let s := { s with cfg := { s.cfg with prox_threshold_lo := (prox_mean + 1000) % 2 ^ 16 } }
      let s :=
        if s.cfg.prox_threshold_lo < (s.sat_prox * 12) / 100 then
          let s := { s with cfg := { s.cfg with prox_threshold_lo := ((s.sat_prox * 12) / 100) % 2 ^ 16 } }
          { s with cfg := { s.cfg with prox_threshold_hi := ((s.sat_prox * 15) / 100) % 2 ^ 16 } }
        else s
      (a.ret, s)

/-- The mean `prox_mean` of a calibration run: the sum of the proximity words of the
twenty polls, divided by 20. -/
def cal_mean (bus : Nat → Nat → RegRead) : Nat :=
  ((List.range 20).map (fun j => chan_word (bus j) 4 5)).sum / 20

/-! ## Light pipeline pass -/

/-- Bus results of one `taos_als_work` pass: those of `taos_get_lux` and the
interrupt-clear write. -/
structure AlsBus where
  lux : LuxBus
  intclr : Int

/-- The function `taos_als_work`: `g_nlux = taos_get_lux()`, whatever was returned; the
result of the interrupt clear is only logged. -/
def taos_als_work (s : Driver) (b : AlsBus) : Driver :=
  let r := taos_get_lux s b.lux
  let s := r.2
  { s with g_nlux := r.1 }

/-! ## Interrupt dispatcher -/

/-- What the dispatcher acts on: the disable depth of the interrupt line (0 when the
signal is unmasked) and the numbers of `schedule_delayed_work(&als_work, 0)` and
`schedule_work(&prox_work)` calls issued so far.  The work queue itself belongs to
the kernel. -/
structure Dispatch where
  irq_depth : Nat
  als_work : Nat
  prox_work : Nat
  deriving DecidableEq, Repr

/-- The function `taos_interrupt`; `r` holds the results of the select of the status
register and of the byte read, the latter stored in the `u16 status` unchecked. -/
def taos_interrupt (q : Dispatch) (r : RegRead) : Dispatch :=
  let q := { q with irq_depth := q.irq_depth + 1 }
  let q :=
    if r.sel < 0 then q
    else
      let status := (r.val % 2 ^ 16).toNat
      let q := if (status &&& 0x10) ≠ 0 ∧ (status &&& 0x20) = 0 then
        { q with als_work := q.als_work + 1 } else q
      if (status &&& 0x20) ≠ 0 then { q with prox_work := q.prox_work + 1 } else q
  { q with irq_depth := q.irq_depth - 1 }

/-! ## Light calibration (`TAOS_IOCTL_ALS_CALIBRATE`) -/

/-- Bus results of one `TAOS_IOCTL_ALS_CALIBRATE` call: the reads of the control and
of the status register and the results of `taos_get_lux`. -/
structure GainBus where
  cntrl : RegRead
  status : RegRead
  lux : LuxBus

/-- The `TAOS_IOCTL_ALS_CALIBRATE` case.  The quotient is computed in `u32` and cast
to `u16`; `none` stands for the division by a zero `lux_val`, which has no result. -/
def taos_ioctl_ALS_CALIBRATE (s : Driver) (b : GainBus) : Option (Int × Driver) :=
  if b.cntrl.sel < 0 then some (b.cntrl.sel, s)
  else
    let reg_val := u8 b.cntrl.val
    if (reg_val &&& 0x07) ≠ 0x07 then some (-ENODATA, s)
    else if b.status.sel < 0 then some (b.status.sel, s)
    else
      let reg_val := u8 b.status.val
      if (reg_val &&& 0x01) ≠ 0x01 then some (-ENODATA, s)
      else
        let r := taos_get_lux s b.lux
        let lux_val := r.1
        let s := r.2
        if lux_val < 0 then some (lux_val, s)
        else if lux_val = 0 then none
        else
          let gain_trim_val : Nat := (((s.cfg.calibrate_target * 512) % 2 ^ 32) / lux_val.toNat) % 2 ^ 16
          let s := { s with cfg := { s.cfg with gain_trim := gain_trim_val } }
          some ((gain_trim_val : Int), s)

/-! ## The lux formula of the specification -/

/-- The lux formula in the words of the specification, over exact naturals:
`min (((((clear * clear_coeff - ir * ir_coeff) + den / 2) / den) * 1 + gain / 2) / gain >> 3)
65535000`, to be compared with what `taos_get_lux` computes in `u32`. -/
def lux_formula (clear ir den gain clear_coeff ir_coeff : Nat) : Nat :=
  min ((((((clear * clear_coeff - ir * ir_coeff) + den / 2) / den) * 1 + gain / 2) / gain) >>> 3)
    65535000

/-- The selection rule as the specification words it: the first entry of the ratio
table, in table order, whose ratio threshold exceeds `r` (the zero sentinel is no
entry). -/
def first_exceeding (r : Nat) : Option lux_data :=
  TritonFN_lux_data.find? (fun e => decide (e.ratio ≠ 0 ∧ r < e.ratio))

/-- The selection rule with "reaches" for "exceeds": the first entry of the ratio
table, in table order, whose ratio threshold is `r` or more (the zero sentinel is no
entry). -/
def first_reaching (r : Nat) : Option lux_data :=
  TritonFN_lux_data.find? (fun e => decide (e.ratio ≠ 0 ∧ r ≤ e.ratio))

/-! ## Test fixtures -/

/-- The configuration `taos_probe` installs (the default board's thresholds). -/
def cfg0 : taos_cfg :=
  { calibrate_target := 300000, als_time := 100, scale_factor := 1, gain_trim := 512,
    filter_history := 3, filter_count := 1, gain := 1, prox_threshold_hi := 9500,
    prox_threshold_lo := 9000, prox_int_time := 0xEE, prox_adc_time := 0xEE,
    prox_wait_time := 0xF6, prox_intr_filter := 0, prox_config := 0,
    prox_pulse_cnt := 8, prox_gain := 0x20 }

/-- The driver state after `taos_probe`, proximity mode switched on. -/
def drv0 : Driver :=
  { cfg := cfg0, light_on := 0, prox_on := 1, g_nlux := 0,
    prox_cur_info := ⟨0, 0, 0⟩, prox_cal_info := fun _ => ⟨0, 0, 0⟩,
    sat_als := 18432, sat_prox := 18432, TritonTime := ⟨1, 0, 0⟩,
    als_intr_threshold_hi_param := 0, als_intr_threshold_lo_param := 0,
    lux_history := ⟨-61, -61, -61⟩, chip := ⟨0, 0, 0xFFFF, 0⟩ }

/-- A burst whose selects all succeed and that delivers the bytes of `bytes`. -/
def burst_of (bytes : List Nat) : Nat → RegRead :=
  fun i => ⟨0, (bytes.getD i 0 : Nat)⟩

/-- The burst of a light sample `clear`, `ir`, low byte first. -/
def als_burst (clear ir : Nat) : Nat → RegRead :=
  burst_of [clear % 256, clear / 256, ir % 256, ir / 256]

/-- The burst of a proximity poll with clear reading `clear` and proximity reading `prox`. -/
def prox_burst (clear prox : Nat) : Nat → RegRead :=
  burst_of [clear % 256, clear / 256, 0, 0, prox % 256, prox / 256]

/-- The driver state right after `TAOS_IOCTL_PROX_ON` on the probe state: the sensor's
proximity thresholds hold the configured pair. -/
def drv_on : Driver :=
  { drv0 with chip := ⟨0, 0, 9500, 9000⟩ }

end Taos

namespace Taos

/-! ## Configuration store -/

/-- The integration time `TAOS_IOCTL_CONFIG_SET` stores, as a function of the one passed in. -/
theorem config_set_als_time_eq (s : Driver) (arg : taos_cfg) :
    (taos_ioctl_CONFIG_SET s arg 0).2.cfg.als_time
      = 50 * ((min (max arg.als_time 50) 650 + 25) / 50) := by
  simp only [taos_ioctl_CONFIG_SET]
  by_cases h1 : arg.als_time < 50
  · simp [h1]; omega
  · by_cases h2 : arg.als_time > 650
    · simp [h1, h2]; omega
    · simp [h1, h2]; omega

/-- Every field but the integration time is stored as passed in. -/
theorem config_set_cfg (s : Driver) (arg : taos_cfg) :
    (taos_ioctl_CONFIG_SET s arg 0).2.cfg
      = { arg with als_time := 50 * ((min (max arg.als_time 50) 650 + 25) / 50) } := by
  have h := config_set_als_time_eq s arg
  simp only [taos_ioctl_CONFIG_SET] at h ⊢
  by_cases h1 : arg.als_time < 50
  · simp [h1] at h ⊢; omega
  · by_cases h2 : arg.als_time > 650
    · simp [h1, h2] at h ⊢; omega
    · simp [h1, h2] at h ⊢; omega

/-- The state `TAOS_IOCTL_CONFIG_SET` leaves behind when the copy succeeded. -/
theorem config_set_state (s : Driver) (arg : taos_cfg) :
    taos_ioctl_CONFIG_SET s arg 0 = (0,
      { s with
        cfg := { arg with als_time := 50 * ((min (max arg.als_time 50) 650 + 25) / 50) }
        sat_als := ((256 - arg.prox_int_time) <<< 10) % 2 ^ 16
        sat_prox := ((256 - arg.prox_adc_time) <<< 10) % 2 ^ 16 }) := by
  have h := config_set_cfg s arg
  simp only [taos_ioctl_CONFIG_SET] at h ⊢
  by_cases h1 : arg.als_time < 50
  · simp [h1] at h ⊢; omega
  · by_cases h2 : arg.als_time > 650
    · simp [h1, h2] at h ⊢; omega
    · simp [h1, h2] at h ⊢; omega

/-- C1: for every integration time passed to `TAOS_IOCTL_CONFIG_SET` (16-bit or not),
the stored integration time is `50 * ((min (max x 50) 650 + 25) / 50)`; it lies in
`[50, 650]`, is a multiple of 50, is a multiple of 50 nearest to the clamped input and
the upper one of two equally near multiples; 620 gives 600, 39 gives 50, 999 gives 650. -/
theorem config_set_als_time (s : Driver) (arg : taos_cfg) :
    (taos_ioctl_CONFIG_SET s arg 0).2.cfg.als_time
        = 50 * ((min (max arg.als_time 50) 650 + 25) / 50) ∧
      50 ≤ (taos_ioctl_CONFIG_SET s arg 0).2.cfg.als_time ∧
      (taos_ioctl_CONFIG_SET s arg 0).2.cfg.als_time ≤ 650 ∧
      50 ∣ (taos_ioctl_CONFIG_SET s arg 0).2.cfg.als_time ∧
      (∀ k : Nat,
        |((taos_ioctl_CONFIG_SET s arg 0).2.cfg.als_time : Int) - min (max arg.als_time 50) 650|
          ≤ |((50 * k : Nat) : Int) - min (max arg.als_time 50) 650|) ∧
      (∀ k : Nat, 50 * k ≤ (taos_ioctl_CONFIG_SET s arg 0).2.cfg.als_time ∨
        |((taos_ioctl_CONFIG_SET s arg 0).2.cfg.als_time : Int) - min (max arg.als_time 50) 650|
          < |((50 * k : Nat) : Int) - min (max arg.als_time 50) 650|) ∧
      (taos_ioctl_CONFIG_SET s { arg with als_time := 620 } 0).2.cfg.als_time = 600 ∧
      (taos_ioctl_CONFIG_SET s { arg with als_time := 39 } 0).2.cfg.als_time = 50 ∧
      (taos_ioctl_CONFIG_SET s { arg with als_time := 999 } 0).2.cfg.als_time = 650 := by
  simp only [config_set_als_time_eq]
  have hc1 : 50 ≤ min (max arg.als_time 50) 650 := by omega
  have hc2 : min (max arg.als_time 50) 650 ≤ 650 := by omega
  generalize min (max arg.als_time 50) 650 = c at hc1 hc2
  refine ⟨trivial, by omega, by omega, Dvd.intro _ rfl, ?_, ?_, by decide, by decide, by decide⟩
  · intro k
    rcases abs_cases (((50 * ((c + 25) / 50) : Nat) : Int) - (c : Int)) with ⟨e1, _⟩ | ⟨e1, _⟩ <;>
      rcases abs_cases (((50 * k : Nat) : Int) - (c : Int)) with ⟨e2, _⟩ | ⟨e2, _⟩ <;>
      rw [e1, e2] <;> push_cast <;> omega
  · intro k
    rcases abs_cases (((50 * ((c + 25) / 50) : Nat) : Int) - (c : Int)) with ⟨e1, _⟩ | ⟨e1, _⟩ <;>
      rcases abs_cases (((50 * k : Nat) : Int) - (c : Int)) with ⟨e2, _⟩ | ⟨e2, _⟩ <;>
      rw [e1, e2] <;> push_cast <;> omega

/-- C2: `set_config(get_config())` changes nothing: on the state stored by one
`TAOS_IOCTL_CONFIG_SET`, `TAOS_IOCTL_CONFIG_GET` hands out the stored record, and a
second `TAOS_IOCTL_CONFIG_SET` with that record returns 0 and leaves the whole driver
state, every configuration field and both saturation constants included, as it is. -/
theorem config_set_idempotent (s : Driver) (c : taos_cfg) :
    taos_ioctl_CONFIG_GET (taos_ioctl_CONFIG_SET s c 0).2 0
        = (0, some (taos_ioctl_CONFIG_SET s c 0).2.cfg) ∧
      taos_ioctl_CONFIG_SET (taos_ioctl_CONFIG_SET s c 0).2 (taos_ioctl_CONFIG_SET s c 0).2.cfg 0
        = (0, (taos_ioctl_CONFIG_SET s c 0).2) := by
  refine ⟨by simp [taos_ioctl_CONFIG_GET], ?_⟩
  rw [config_set_state s c]
  rw [config_set_state]
  have h : 50 * ((min (max (50 * ((min (max c.als_time 50) 650 + 25) / 50)) 50) 650 + 25) / 50)
      = 50 * ((min (max c.als_time 50) 650 + 25) / 50) := by omega
  simp [h]

/-! ## Temporal median filter -/

/-- The history after `taos_lux_filter`: the sample in front, the oldest slot dropped. -/
theorem lux_filter_state (s : Driver) (lux : Int) :
    (taos_lux_filter s lux).2
      = { s with lux_history := ⟨lux, s.lux_history.h0, s.lux_history.h1⟩ } := by
  simp only [taos_lux_filter]
  split_ifs <;> rfl

/-- While a slot is negative the filter answers `-ENODATA`. -/
theorem lux_filter_nodata (s : Driver) (lux : Int)
    (h : lux < 0 ∨ s.lux_history.h0 < 0 ∨ s.lux_history.h1 < 0) :
    (taos_lux_filter s lux).1 = -ENODATA := by
  have h' : s.lux_history.h1 < 0 ∨ s.lux_history.h0 < 0 ∨ lux < 0 := by tauto
  simp [taos_lux_filter, h']

/-- With three non-negative slots the filter answers the middle one of the three. -/
theorem lux_filter_middle (s : Driver) (lux : Int)
    (h0 : 0 ≤ lux) (h1 : 0 ≤ s.lux_history.h0) (h2 : 0 ≤ s.lux_history.h1) :
    (taos_lux_filter s lux).1
      = lux + s.lux_history.h0 + s.lux_history.h1
        - min lux (min s.lux_history.h0 s.lux_history.h1)
        - max lux (max s.lux_history.h0 s.lux_history.h1) := by
  have h' : ¬ (s.lux_history.h1 < 0 ∨ s.lux_history.h0 < 0 ∨ lux < 0) := by omega
  simp only [taos_lux_filter, h', if_false]
  by_cases c1 : lux > s.lux_history.h0 <;> by_cases c2 : s.lux_history.h0 > s.lux_history.h1 <;>
    by_cases c3 : lux > s.lux_history.h1 <;>
    simp [c1, c2, c3, middle, lux_hist.get] <;> omega

/-- C3: `taos_lux_filter` puts the sample in front of the history (newest first, the
oldest slot dropped); it answers `-ENODATA` when one of the three slots is negative
(holds the sentinel) and otherwise the median of the three, the value left when one
minimum and one maximum are taken away.  Samples 10, 30, 20 in this order give 20. -/
theorem lux_filter_median (s : Driver) (lux : Int) :
    (taos_lux_filter s lux).2
        = { s with lux_history := ⟨lux, s.lux_history.h0, s.lux_history.h1⟩ } ∧
      (taos_lux_filter s lux).1
        = (if lux < 0 ∨ s.lux_history.h0 < 0 ∨ s.lux_history.h1 < 0 then -ENODATA
           else lux + s.lux_history.h0 + s.lux_history.h1
             - min lux (min s.lux_history.h0 s.lux_history.h1)
             - max lux (max s.lux_history.h0 s.lux_history.h1)) ∧
      ENODATA = 61 ∧
      (taos_lux_filter (taos_lux_filter (taos_lux_filter s 10).2 30).2 20).1 = 20 := by
  refine ⟨lux_filter_state s lux, ?_, rfl, ?_⟩
  · by_cases h : lux < 0 ∨ s.lux_history.h0 < 0 ∨ s.lux_history.h1 < 0
    · rw [if_pos h]; exact lux_filter_nodata s lux h
    · rw [if_neg h]; exact lux_filter_middle s lux (by omega) (by omega) (by omega)
  · rw [lux_filter_middle _ 20 (by decide)]
    · simp [lux_filter_state]
    · simp [lux_filter_state]
    · simp [lux_filter_state]

/-! ## Lux computation engine -/

/-- A burst whose selects all succeed runs to its end. -/
theorem read_loop_ok (rd : Nat → RegRead) (k : Nat) :
    ∀ i ret, (∀ j, i ≤ j → j < i + k → 0 ≤ (rd j).sel) →
      ∃ r, read_loop rd k i ret = .ok r ∧ (0 ≤ ret → 0 ≤ r) := by
  induction k with
  | zero => intro i ret _; exact ⟨ret, rfl, id⟩
  | succ k ih =>
    intro i ret h
    have hi : ¬ (rd i).sel < 0 := not_lt.mpr (h i le_rfl (by omega))
    obtain ⟨r, hr, hr0⟩ := ih (i + 1) (rd i).sel (fun j h1 h2 => h j (by omega) (by omega))
    exact ⟨r, by simp [read_loop, hi, hr], fun _ => hr0 (not_lt.mp hi)⟩

/-- The value `taos_get_lux` returns once the four channel registers were read. -/
theorem get_lux_ret (s : Driver) (b : LuxBus) (hrd : ∀ i, i < 4 → 0 ≤ (b.ch i).sel) :
    (taos_get_lux s b).1
      = lux_calc s.cfg ⟨1, (s.cfg.als_time + 25) / 50 % 2 ^ 16, min (300 * s.cfg.als_time) 65535⟩
          (chan_word b.ch 0 1) (chan_word b.ch 2 3) := by
  obtain ⟨r, hr, -⟩ := read_loop_ok b.ch 4 0 0 (fun j _ h2 => hrd j (by omega))
  have hsat : (if 300 * s.cfg.als_time > 65535 then 65535 else 300 * s.cfg.als_time) % 2 ^ 16
      = min (300 * s.cfg.als_time) 65535 := by
    split_ifs <;> omega
  simp only [taos_get_lux, hr, hsat]

/-- The swap makes the scaled pair independent of the order the channels arrive in. -/
theorem lux_scale_comm (sf a b : Nat) : lux_scale sf a b = lux_scale sf b a := by
  unfold lux_scale
  rcases Nat.lt_trichotomy a b with h | h | h
  · simp [h, Nat.lt_asymm h]
  · simp [h]
  · simp [h, Nat.lt_asymm h]

/-- The computing tail returns the maximum as soon as a scaled channel reaches the
saturation of the time scale. -/
theorem lux_calc_saturated (cfg : taos_cfg) (t : time_scale_factor) (c i : Nat)
    (h : t.saturation ≤ (lux_scale cfg.scale_factor c i).1 ∨
      t.saturation ≤ (lux_scale cfg.scale_factor c i).2) :
    lux_calc cfg t c i = 65535000 := by
  unfold lux_calc
  rcases h with h | h
  · simp [h, TAOS_MAX_LUX]
  · by_cases h1 : t.saturation ≤ (lux_scale cfg.scale_factor c i).1
    · simp [h1, TAOS_MAX_LUX]
    · simp [h, h1, TAOS_MAX_LUX]

/-- With a zero scaled clear channel the computing tail gets as far as the saturation
test of the scaled ir channel and no further. -/
theorem lux_calc_zero_clear (cfg : taos_cfg) (t : time_scale_factor) (c i : Nat)
    (h : (lux_scale cfg.scale_factor c i).1 = 0) :
    lux_calc cfg t c i
      = if 0 < t.saturation ∧ (lux_scale cfg.scale_factor c i).2 < t.saturation then 0
        else 65535000 := by
  unfold lux_calc
  by_cases h0 : t.saturation = 0
  · simp [h, h0, TAOS_MAX_LUX]
  · by_cases h1 : t.saturation ≤ (lux_scale cfg.scale_factor c i).2
    · simp [h, h0, h1, TAOS_MAX_LUX, Nat.not_lt.mpr h1]
    · have h2 : 0 < t.saturation := Nat.pos_of_ne_zero h0
      simp [h, h0, h1, h2, Nat.not_le.mp h1]

/-- Every select of a fixture burst succeeds. -/
theorem burst_of_sel (bytes : List Nat) (i : Nat) : 0 ≤ (burst_of bytes i).sel := by
  simp [burst_of]

/-- C4, refuted as stated: with `scale_factor = 2` the sample clear = 32768, ir = 20000
is read successfully and has scaled clear 0 (the 16-bit product wraps), yet
`taos_get_lux` returns 65535000, not 0, because the scaled ir 40000 is above the
saturation 30000 and the saturation tests come first. -/
theorem get_lux_zero_clear_counterexample :
    (∀ i, i < 4 → 0 ≤ ((als_burst 32768 20000) i).sel) ∧
      lux_scale 2 (chan_word (als_burst 32768 20000) 0 1) (chan_word (als_burst 32768 20000) 2 3)
        = (0, 40000) ∧
      (taos_get_lux { drv0 with cfg := { cfg0 with scale_factor := 2 } }
        ⟨als_burst 32768 20000, 0, 0⟩).1 = 65535000 ∧
      (taos_get_lux { drv0 with cfg := { cfg0 with scale_factor := 2 } }
        ⟨als_burst 32768 20000, 0, 0⟩).1 ≠ 0 := by
  refine ⟨fun i _ => burst_of_sel _ i, by decide, by decide, by decide⟩

/-- C4, amended: when the four channel registers were read and the scaled clear channel
(after the swap and the multiplication by `scale_factor`) equals 0, `taos_get_lux`
returns exactly 0 if the scaled ir channel is below the saturation
`min (300 * als_time) 65535`, and the maximum 65535000 otherwise. -/
theorem get_lux_zero_clear (s : Driver) (b : LuxBus)
    (hrd : ∀ i, i < 4 → 0 ≤ (b.ch i).sel)
    (hclear : (lux_scale s.cfg.scale_factor (chan_word b.ch 0 1) (chan_word b.ch 2 3)).1 = 0) :
    (taos_get_lux s b).1
      = if (lux_scale s.cfg.scale_factor (chan_word b.ch 0 1) (chan_word b.ch 2 3)).2
            < min (300 * s.cfg.als_time) 65535 then 0
        else 65535000 := by
  rw [get_lux_ret s b hrd, lux_calc_zero_clear _ _ _ _ hclear]
  by_cases h : (lux_scale s.cfg.scale_factor (chan_word b.ch 0 1) (chan_word b.ch 2 3)).2
      < min (300 * s.cfg.als_time) 65535
  · have h0 : 0 < min (300 * s.cfg.als_time) 65535 := by omega
    simp only [h, h0, and_self, if_true]
  · simp only [h, and_false, if_false]

/-- Witness of C4 (amended): scale factor 2, clear = 32768, ir = 100 gives scaled clear 0,
scaled ir 200 below the saturation 30000, and lux 0. -/
theorem get_lux_zero_clear_witness :
    (lux_scale 2 (chan_word (als_burst 32768 100) 0 1) (chan_word (als_burst 32768 100) 2 3)).1 = 0 ∧
      (taos_get_lux { drv0 with cfg := { cfg0 with scale_factor := 2 } }
        ⟨als_burst 32768 100, 0, 0⟩).1 = 0 :=
  ⟨by decide,
   (get_lux_zero_clear { drv0 with cfg := { cfg0 with scale_factor := 2 } }
      ⟨als_burst 32768 100, 0, 0⟩ (fun i _ => burst_of_sel _ i) (by decide)).trans (by decide)⟩

/-- C5: when the four channel registers were read and either scaled channel is at or
above the saturation `min (300 * als_time) 65535` of the time scale, `taos_get_lux`
returns the maximum 65535000. -/
theorem get_lux_saturated (s : Driver) (b : LuxBus)
    (hrd : ∀ i, i < 4 → 0 ≤ (b.ch i).sel)
    (hsat : min (300 * s.cfg.als_time) 65535
        ≤ (lux_scale s.cfg.scale_factor (chan_word b.ch 0 1) (chan_word b.ch 2 3)).1 ∨
      min (300 * s.cfg.als_time) 65535
        ≤ (lux_scale s.cfg.scale_factor (chan_word b.ch 0 1) (chan_word b.ch 2 3)).2) :
    (taos_get_lux s b).1 = 65535000 := by
  rw [get_lux_ret s b hrd]
  exact lux_calc_saturated _ _ _ _ hsat

/-- Witness of C5: integration time 100 (saturation 30000), clear = 40000, ir = 100. -/
theorem get_lux_saturated_witness :
    min (300 * drv0.cfg.als_time) 65535
        ≤ (lux_scale drv0.cfg.scale_factor (chan_word (als_burst 40000 100) 0 1)
            (chan_word (als_burst 40000 100) 2 3)).1 ∧
      (taos_get_lux drv0 ⟨als_burst 40000 100, 0, 0⟩).1 = 65535000 :=
  ⟨by decide,
   get_lux_saturated drv0 ⟨als_burst 40000 100, 0, 0⟩ (fun i _ => burst_of_sel _ i)
     (Or.inl (by decide))⟩

/-- C6: for raw readings `x`, `y` and any configuration, a successfully read sample
(clear = `x`, ir = `y`) and a successfully read sample (clear = `y`, ir = `x`) make
`taos_get_lux` return the same value. -/
theorem get_lux_swap (s : Driver) (b1 b2 : LuxBus) (x y : Nat)
    (h1 : ∀ i, i < 4 → 0 ≤ (b1.ch i).sel) (h2 : ∀ i, i < 4 → 0 ≤ (b2.ch i).sel)
    (hc1 : chan_word b1.ch 0 1 = x) (hi1 : chan_word b1.ch 2 3 = y)
    (hc2 : chan_word b2.ch 0 1 = y) (hi2 : chan_word b2.ch 2 3 = x) :
    (taos_get_lux s b1).1 = (taos_get_lux s b2).1 := by
  rw [get_lux_ret s b1 h1, get_lux_ret s b2 h2, hc1, hi1, hc2, hi2]
  unfold lux_calc
  rw [lux_scale_comm]

/-- Witness of C6: the samples (1000, 200) and (200, 1000) both give 41000. -/
theorem get_lux_swap_witness :
    chan_word (als_burst 1000 200) 0 1 = 1000 ∧ chan_word (als_burst 1000 200) 2 3 = 200 ∧
      chan_word (als_burst 200 1000) 0 1 = 200 ∧ chan_word (als_burst 200 1000) 2 3 = 1000 ∧
      (taos_get_lux drv0 ⟨als_burst 1000 200, 0, 0⟩).1
        = (taos_get_lux drv0 ⟨als_burst 200 1000, 7, -5⟩).1 ∧
      (taos_get_lux drv0 ⟨als_burst 200 1000, 7, -5⟩).1 = 41000 :=
  ⟨by decide, by decide, by decide, by decide,
   get_lux_swap drv0 ⟨als_burst 1000 200, 0, 0⟩ ⟨als_burst 200 1000, 7, -5⟩ 1000 200
     (fun i _ => burst_of_sel _ i) (fun i _ => burst_of_sel _ i)
     (by decide) (by decide) (by decide) (by decide),
   by decide⟩

/-! ## Proximity pipeline -/

/-- A burst that breaks off does so with a negative result. -/
theorem read_loop_error (rd : Nat → RegRead) (k : Nat) :
    ∀ i ret e, read_loop rd k i ret = .error e → e < 0 := by
  induction k with
  | zero => intro i ret e h; simp [read_loop] at h
  | succ k ih =>
    intro i ret e h
    by_cases hi : (rd i).sel < 0
    · simp only [read_loop, if_pos hi] at h
      cases h
      exact hi
    · simp only [read_loop, if_neg hi] at h
      exact ih _ _ _ h

/-- A poll that does not fail has stored the proximity word of its burst. -/
theorem prox_poll_data (sat_als : Nat) (prxp : taos_prox_info) (rd : Nat → RegRead)
    (h : 0 ≤ (taos_prox_poll sat_als prxp rd).1) :
    (taos_prox_poll sat_als prxp rd).2.prox_data = chan_word rd 4 5 := by
  unfold taos_prox_poll at h ⊢
  cases hr : read_loop rd 6 0 0 with
  | error e =>
    have := read_loop_error rd 6 0 0 e hr
    simp only [hr] at h
    omega
  | ok r =>
    simp only [hr] at h ⊢
    by_cases hc : chan_word rd 0 1 > sat_als * 80 / 100
    · simp [hc, ENODATA] at h
    · simp [hc]

/-- The result of a poll does not depend on the record it fills. -/
theorem prox_poll_ret (sat_als : Nat) (p q : taos_prox_info) (rd : Nat → RegRead) :
    (taos_prox_poll sat_als p rd).1 = (taos_prox_poll sat_als q rd).1 := by
  unfold taos_prox_poll
  cases read_loop rd 6 0 0 with
  | error e => rfl
  | ok r =>
    by_cases hc : chan_word rd 0 1 > sat_als * 80 / 100
    · simp [hc]
    · simp [hc]

/-- C7: let `p` be the proximity reading in `prox_cur_info` after the poll of a pass
(the word just read when the poll succeeded) and let the two threshold word writes
succeed.  If `p > hi` the event becomes near (1) and the device thresholds become
`sat_prox` and the configured `lo`; else if `p < lo` the event becomes far (0) and the
thresholds become the configured `hi` and 0; otherwise event and thresholds stay.
With `hi = 9500`, `lo = 9000`, `sat_prox = 18432`: 9600 gives near and (18432, 9000),
then 8900 gives far and (9500, 0), then 9200 changes neither. -/
theorem prox_work_hysteresis (s : Driver) (b : ProxBus) (p : Nat)
    (hp : (taos_prox_poll s.sat_als s.prox_cur_info b.poll).2.prox_data = p)
    (hmax : 0 ≤ b.wr_max) (hmin : 0 ≤ b.wr_min) :
    (0 ≤ (taos_prox_poll s.sat_als s.prox_cur_info b.poll).1 → p = chan_word b.poll 4 5) ∧
      (p > s.cfg.prox_threshold_hi →
        (taos_prox_work s b).prox_cur_info.prox_event = 1 ∧
        (taos_prox_work s b).chip.prx_maxthresh = s.sat_prox ∧
        (taos_prox_work s b).chip.prx_minthresh = s.cfg.prox_threshold_lo) ∧
      (¬ p > s.cfg.prox_threshold_hi → p < s.cfg.prox_threshold_lo →
        (taos_prox_work s b).prox_cur_info.prox_event = 0 ∧
        (taos_prox_work s b).chip.prx_maxthresh = s.cfg.prox_threshold_hi ∧
        (taos_prox_work s b).chip.prx_minthresh = 0) ∧
      (¬ p > s.cfg.prox_threshold_hi → ¬ p < s.cfg.prox_threshold_lo →
        (taos_prox_work s b).prox_cur_info.prox_event = s.prox_cur_info.prox_event ∧
        (taos_prox_work s b).chip = s.chip) ∧
      (taos_prox_work s b).cfg = s.cfg ∧
      ((taos_prox_work drv0 ⟨prox_burst 100 9600, 0, 0, 0, 0, 0⟩).prox_cur_info.prox_event = 1 ∧
        (taos_prox_work drv0 ⟨prox_burst 100 9600, 0, 0, 0, 0, 0⟩).chip.prx_maxthresh = 18432 ∧
        (taos_prox_work drv0 ⟨prox_burst 100 9600, 0, 0, 0, 0, 0⟩).chip.prx_minthresh = 9000) ∧
      ((taos_prox_work (taos_prox_work drv0 ⟨prox_burst 100 9600, 0, 0, 0, 0, 0⟩)
          ⟨prox_burst 100 8900, 0, 0, 0, 0, 0⟩).prox_cur_info.prox_event = 0 ∧
        (taos_prox_work (taos_prox_work drv0 ⟨prox_burst 100 9600, 0, 0, 0, 0, 0⟩)
          ⟨prox_burst 100 8900, 0, 0, 0, 0, 0⟩).chip.prx_maxthresh = 9500 ∧
        (taos_prox_work (taos_prox_work drv0 ⟨prox_burst 100 9600, 0, 0, 0, 0, 0⟩)
          ⟨prox_burst 100 8900, 0, 0, 0, 0, 0⟩).chip.prx_minthresh = 0) ∧
      ((taos_prox_work (taos_prox_work (taos_prox_work drv0 ⟨prox_burst 100 9600, 0, 0, 0, 0, 0⟩)
          ⟨prox_burst 100 8900, 0, 0, 0, 0, 0⟩)
          ⟨prox_burst 100 9200, 0, 0, 0, 0, 0⟩).prox_cur_info.prox_event = 0 ∧
        (taos_prox_work (taos_prox_work (taos_prox_work drv0 ⟨prox_burst 100 9600, 0, 0, 0, 0, 0⟩)
          ⟨prox_burst 100 8900, 0, 0, 0, 0, 0⟩)
          ⟨prox_burst 100 9200, 0, 0, 0, 0, 0⟩).chip.prx_maxthresh = 9500 ∧
        (taos_prox_work (taos_prox_work (taos_prox_work drv0 ⟨prox_burst 100 9600, 0, 0, 0, 0, 0⟩)
          ⟨prox_burst 100 8900, 0, 0, 0, 0, 0⟩)
          ⟨prox_burst 100 9200, 0, 0, 0, 0, 0⟩).chip.prx_minthresh = 0) := by
  have wmax : ∀ o v, write_word b.wr_max o v = v := fun o v => by
    simp [write_word, not_lt.mpr hmax]
  have wmin : ∀ o v, write_word b.wr_min o v = v := fun o v => by
    simp [write_word, not_lt.mpr hmin]
  refine ⟨fun h => ?_, fun h => ?_, fun h1 h2 => ?_, fun h1 h2 => ?_, ?_,
    by decide, by decide, by decide⟩
  · rw [← hp]; exact prox_poll_data _ _ _ h
  · subst hp
    simp [taos_prox_work, h, wmax, wmin]
  · subst hp
    simp [taos_prox_work, h1, h2, wmax, wmin]
  · subst hp
    unfold taos_prox_poll at h1 h2
    unfold taos_prox_work taos_prox_poll
    cases hr : read_loop b.poll 6 0 0 with
    | error e => simp only [hr] at h1 h2 ⊢; simp [h1, h2]
    | ok r =>
      simp only [hr] at h1 h2 ⊢
      by_cases hc : chan_word b.poll 0 1 > s.sat_als * 80 / 100
      · simp only [hc, if_true] at h1 h2 ⊢; simp [h1, h2]
      · simp only [hc, if_false] at h1 h2 ⊢; simp [h1, h2]
  · simp only [taos_prox_work]
    split_ifs <;> rfl

/-- Witness of C7: the pass on the probe state with reading 9600 (above `hi = 9500`). -/
theorem prox_work_hysteresis_witness :
    (taos_prox_poll drv0.sat_als drv0.prox_cur_info (prox_burst 100 9600)).2.prox_data = 9600 ∧
      9600 > drv0.cfg.prox_threshold_hi ∧
      (taos_prox_work drv0 ⟨prox_burst 100 9600, 0, 0, 0, 0, 0⟩).prox_cur_info.prox_event = 1 ∧
      (taos_prox_work drv0 ⟨prox_burst 100 9600, 0, 0, 0, 0, 0⟩).chip.prx_maxthresh
        = drv0.sat_prox ∧
      (taos_prox_work drv0 ⟨prox_burst 100 9600, 0, 0, 0, 0, 0⟩).chip.prx_minthresh
        = drv0.cfg.prox_threshold_lo :=
  ⟨by decide, by decide,
   (prox_work_hysteresis drv0 ⟨prox_burst 100 9600, 0, 0, 0, 0, 0⟩ 9600 (by decide)
      (by decide) (by decide)).2.1 (by decide)⟩

/-! ## Proximity calibration -/

/-- Sum of the first `k` proximity readings delivered from poll `i` on. -/
theorem cal_loop_ok (sat_als : Nat) (bus : Nat → Nat → RegRead) (k : Nat) :
    ∀ i a, (∀ j, i ≤ j → j < i + k → ∀ q, 0 ≤ (taos_prox_poll sat_als q (bus j)).1) →
      ∃ a', cal_loop sat_als bus k i a = .ok a' ∧
        a'.prox_sum
          = a.prox_sum + ((List.range k).map (fun j => chan_word (bus (i + j)) 4 5)).sum := by
  induction k with
  | zero => intro i a _; exact ⟨a, rfl, by simp⟩
  | succ k ih =>
    intro i a h
    have h0 := h i le_rfl (by omega) (a.info i)
    have hd := prox_poll_data _ _ _ h0
    obtain ⟨a', ha', hs⟩ := ih (i + 1)
      (if (taos_prox_poll sat_als (a.info i) (bus i)).2.prox_data > a.prox_max then
        { info := Function.update a.info i (taos_prox_poll sat_als (a.info i) (bus i)).2,
          prox_sum := a.prox_sum + (taos_prox_poll sat_als (a.info i) (bus i)).2.prox_data,
          prox_max := (taos_prox_poll sat_als (a.info i) (bus i)).2.prox_data,
          ret := (taos_prox_poll sat_als (a.info i) (bus i)).1 }
       else
        { info := Function.update a.info i (taos_prox_poll sat_als (a.info i) (bus i)).2,
          prox_sum := a.prox_sum + (taos_prox_poll sat_als (a.info i) (bus i)).2.prox_data,
          prox_max := a.prox_max,
          ret := (taos_prox_poll sat_als (a.info i) (bus i)).1 })
      (fun j h1 h2 q => h j (by omega) (by omega) q)
    refine ⟨a', ?_, ?_⟩
    · rw [← ha']
      simp only [cal_loop, Function.update_same, if_neg (not_lt.mpr h0)]
    · rw [hs, List.sum_range_succ']
      have e : ∀ j, i + 1 + j = i + (j + 1) := fun j => by omega
      simp only [e, hd, Nat.add_zero, Nat.succ_eq_add_one]
      split_ifs <;> simp only [Nat.add_assoc]

/-- The thresholds a calibration run stores when proximity mode is on and all twenty
polls succeed. -/
theorem calibrate_thresholds (s : Driver) (bus : Nat → Nat → RegRead)
    (hon : s.prox_on ≠ 0)
    (hok : ∀ i, i < 20 → 0 ≤ (taos_prox_poll s.sat_als (s.prox_cal_info i) (bus i)).1) :
    (taos_ioctl_PROX_CALIBRATE s bus).2.cfg.prox_threshold_lo
        = (if (cal_mean bus + 1000) % 2 ^ 16 < s.sat_prox * 12 / 100
            then (s.sat_prox * 12 / 100) % 2 ^ 16 else (cal_mean bus + 1000) % 2 ^ 16) ∧
      (taos_ioctl_PROX_CALIBRATE s bus).2.cfg.prox_threshold_hi
        = (if (cal_mean bus + 1000) % 2 ^ 16 < s.sat_prox * 12 / 100
            then (s.sat_prox * 15 / 100) % 2 ^ 16
            else (cal_mean bus + 1500) % 2 ^ 16) := by
  obtain ⟨a', ha', hs⟩ := cal_loop_ok s.sat_als bus 20 0 ⟨s.prox_cal_info, 0, 0, 0⟩
    (fun j _ h2 q => by
      rw [prox_poll_ret s.sat_als q (s.prox_cal_info j)]
      exact hok j (by omega))
  have hm : a'.prox_sum / 20 = cal_mean bus := by
    rw [hs]; simp [cal_mean]
  simp only [taos_ioctl_PROX_CALIBRATE, if_neg hon, ha', hm]
  by_cases hf : (cal_mean bus + 1000) % 65536 < s.sat_prox * 12 / 100
  · simp [hf]
  · simp [hf]

/-- Every poll of a constant fixture run on the probe state succeeds when one does. -/
theorem fixture_polls_ok (rd : Nat → RegRead)
    (h : 0 ≤ (taos_prox_poll 18432 ⟨0, 0, 0⟩ rd).1) :
    ∀ i, i < 20 → 0 ≤ (taos_prox_poll drv0.sat_als (drv0.prox_cal_info i) ((fun _ => rd) i)).1 :=
  fun _ _ => h

/-- C8: in a calibration run with proximity mode on, all twenty polls successful and
a 16-bit `sat_prox`, if `mean + 1000` is below `sat_prox * 12 / 100` the stored
thresholds are exactly `lo = sat_prox * 12 / 100` and `hi = sat_prox * 15 / 100`. -/
theorem calibrate_floor (s : Driver) (bus : Nat → Nat → RegRead)
    (hon : s.prox_on ≠ 0)
    (hok : ∀ i, i < 20 → 0 ≤ (taos_prox_poll s.sat_als (s.prox_cal_info i) (bus i)).1)
    (hsat : s.sat_prox < 2 ^ 16)
    (hlo : cal_mean bus + 1000 < s.sat_prox * 12 / 100) :
    (taos_ioctl_PROX_CALIBRATE s bus).2.cfg.prox_threshold_lo = s.sat_prox * 12 / 100 ∧
      (taos_ioctl_PROX_CALIBRATE s bus).2.cfg.prox_threshold_hi = s.sat_prox * 15 / 100 := by
  obtain ⟨h1, h2⟩ := calibrate_thresholds s bus hon hok
  have hf : (cal_mean bus + 1000) % 2 ^ 16 < s.sat_prox * 12 / 100 := by omega
  rw [h1, h2, if_pos hf, if_pos hf]
  constructor <;> omega

/-- Witness of C8: twenty readings of 1000 on the probe state (`sat_prox = 18432`):
`2000 < 2211`, and the stored thresholds are 2211 and 2764. -/
theorem calibrate_floor_witness :
    drv0.prox_on ≠ 0 ∧ drv0.sat_prox < 2 ^ 16 ∧
      cal_mean (fun _ => prox_burst 100 1000) + 1000 < drv0.sat_prox * 12 / 100 ∧
      (taos_ioctl_PROX_CALIBRATE drv0 (fun _ => prox_burst 100 1000)).2.cfg.prox_threshold_lo
        = 2211 ∧
      (taos_ioctl_PROX_CALIBRATE drv0 (fun _ => prox_burst 100 1000)).2.cfg.prox_threshold_hi
        = 2764 :=
  ⟨by decide, by decide, by decide,
   calibrate_floor drv0 (fun _ => prox_burst 100 1000) (by decide)
     (fixture_polls_ok _ (by decide)) (by decide) (by decide)⟩

/-- C9, refuted as stated: twenty successful readings of 65535 on the probe state have
mean 65535 and a computed `lo = 66535` that is not below the floor 2211, yet the stored
thresholds are `hi = 2764`, `lo = 2211`, not `mean + 1500`, `mean + 1000`: the 16-bit
threshold fields wrap to 1499 and 999, and the wrapped `lo` is below the floor. -/
theorem calibrate_mean_counterexample :
    drv0.prox_on ≠ 0 ∧
      (∀ i, i < 20 → 0 ≤ (taos_prox_poll drv0.sat_als (drv0.prox_cal_info i)
        ((fun _ => prox_burst 100 65535) i)).1) ∧
      cal_mean (fun _ => prox_burst 100 65535) = 65535 ∧
      ¬ cal_mean (fun _ => prox_burst 100 65535) + 1000 < drv0.sat_prox * 12 / 100 ∧
      (taos_ioctl_PROX_CALIBRATE drv0 (fun _ => prox_burst 100 65535)).2.cfg.prox_threshold_hi
        = 2764 ∧
      (taos_ioctl_PROX_CALIBRATE drv0 (fun _ => prox_burst 100 65535)).2.cfg.prox_threshold_lo
        = 2211 ∧
      (taos_ioctl_PROX_CALIBRATE drv0 (fun _ => prox_burst 100 65535)).2.cfg.prox_threshold_hi
        ≠ cal_mean (fun _ => prox_burst 100 65535) + 1500 ∧
      (taos_ioctl_PROX_CALIBRATE drv0 (fun _ => prox_burst 100 65535)).2.cfg.prox_threshold_lo
        ≠ cal_mean (fun _ => prox_burst 100 65535) + 1000 := by
  refine ⟨by decide, fixture_polls_ok _ (by decide), by decide, by decide, by decide, by decide,
    by decide, by decide⟩

/-- C9, amended: in a calibration run with proximity mode on and all twenty polls
successful, if `mean + 1500` fits the 16-bit threshold field and `mean + 1000` is not
below `sat_prox * 12 / 100`, the stored thresholds are `hi = mean + 1500` and
`lo = mean + 1000` exactly, `mean` being the sum of the twenty proximity readings
divided by 20; hence `hi - lo = 500`. -/
theorem calibrate_mean (s : Driver) (bus : Nat → Nat → RegRead)
    (hon : s.prox_on ≠ 0)
    (hok : ∀ i, i < 20 → 0 ≤ (taos_prox_poll s.sat_als (s.prox_cal_info i) (bus i)).1)
    (hfit : cal_mean bus + 1500 < 2 ^ 16)
    (hlo : ¬ cal_mean bus + 1000 < s.sat_prox * 12 / 100) :
    (taos_ioctl_PROX_CALIBRATE s bus).2.cfg.prox_threshold_hi = cal_mean bus + 1500 ∧
      (taos_ioctl_PROX_CALIBRATE s bus).2.cfg.prox_threshold_lo = cal_mean bus + 1000 ∧
      (taos_ioctl_PROX_CALIBRATE s bus).2.cfg.prox_threshold_hi
        - (taos_ioctl_PROX_CALIBRATE s bus).2.cfg.prox_threshold_lo = 500 ∧
      cal_mean bus = ((List.range 20).map (fun j => chan_word (bus j) 4 5)).sum / 20 := by
  obtain ⟨h1, h2⟩ := calibrate_thresholds s bus hon hok
  have hf : ¬ (cal_mean bus + 1000) % 2 ^ 16 < s.sat_prox * 12 / 100 := by omega
  rw [h1, h2, if_neg hf, if_neg hf]
  refine ⟨?_, ?_, ?_, rfl⟩ <;> omega

/-- Witness of C9 (amended): twenty readings of 3000 on the probe state give 4500, 4000. -/
theorem calibrate_mean_witness :
    cal_mean (fun _ => prox_burst 100 3000) + 1500 < 2 ^ 16 ∧
      ¬ cal_mean (fun _ => prox_burst 100 3000) + 1000 < drv0.sat_prox * 12 / 100 ∧
      (taos_ioctl_PROX_CALIBRATE drv0 (fun _ => prox_burst 100 3000)).2.cfg.prox_threshold_hi
        = 4500 ∧
      (taos_ioctl_PROX_CALIBRATE drv0 (fun _ => prox_burst 100 3000)).2.cfg.prox_threshold_lo
        = 4000 :=
  ⟨by decide, by decide,
   ((calibrate_mean drv0 (fun _ => prox_burst 100 3000) (by decide)
      (fixture_polls_ok _ (by decide)) (by decide) (by decide)).1.trans (by decide)),
   ((calibrate_mean drv0 (fun _ => prox_burst 100 3000) (by decide)
      (fixture_polls_ok _ (by decide)) (by decide) (by decide)).2.1.trans (by decide))⟩

/-! ## Order of the threshold pair -/

/-- C10, refuted as stated: `TAOS_IOCTL_CONFIG_SET` with a well-formed record whose
thresholds are `hi = 100`, `lo = 200` succeeds and stores that pair, for which
`lo < hi` fails. -/
theorem threshold_order_counterexample :
    ({ cfg0 with prox_threshold_hi := 100, prox_threshold_lo := 200 } : taos_cfg).wf ∧
      (taos_ioctl_CONFIG_SET drv0
        { cfg0 with prox_threshold_hi := 100, prox_threshold_lo := 200 } 0).1 = 0 ∧
      (taos_ioctl_CONFIG_SET drv0
        { cfg0 with prox_threshold_hi := 100, prox_threshold_lo := 200 } 0).2.cfg.prox_threshold_hi
        = 100 ∧
      (taos_ioctl_CONFIG_SET drv0
        { cfg0 with prox_threshold_hi := 100, prox_threshold_lo := 200 } 0).2.cfg.prox_threshold_lo
        = 200 ∧
      ¬ (taos_ioctl_CONFIG_SET drv0
          { cfg0 with prox_threshold_hi := 100, prox_threshold_lo := 200 } 0).2.cfg.prox_threshold_lo
        < (taos_ioctl_CONFIG_SET drv0
          { cfg0 with prox_threshold_hi := 100, prox_threshold_lo := 200 } 0).2.cfg.prox_threshold_hi := by
  refine ⟨by simp [taos_cfg.wf, cfg0], by decide, by decide, by decide, by decide⟩

/-- C10, amended.  `TAOS_IOCTL_CONFIG_SET` stores the caller's threshold pair as it is,
so the stored pair satisfies `lo < hi` exactly when the caller's does.  A calibration
run (proximity mode on, twenty successful polls, 16-bit `sat_prox`) whose
`mean + 1500` fits 16 bits stores a pair with `lo < hi`.  In a proximity pass whose
two threshold writes succeed, with `p` the reading after the poll: in the far case the
device pair `(hi, 0)` satisfies `lo < hi` when the configured pair does, and in the
near case the device pair `(sat_prox, lo)` satisfies `lo < hi` exactly when the
configured `lo` is below `sat_prox`. -/
theorem threshold_order (s : Driver) (arg : taos_cfg) (bus : Nat → Nat → RegRead)
    (b : ProxBus) :
    ((taos_ioctl_CONFIG_SET s arg 0).2.cfg.prox_threshold_hi = arg.prox_threshold_hi ∧
      (taos_ioctl_CONFIG_SET s arg 0).2.cfg.prox_threshold_lo = arg.prox_threshold_lo ∧
      ((taos_ioctl_CONFIG_SET s arg 0).2.cfg.prox_threshold_lo
          < (taos_ioctl_CONFIG_SET s arg 0).2.cfg.prox_threshold_hi
        ↔ arg.prox_threshold_lo < arg.prox_threshold_hi)) ∧
      (s.prox_on ≠ 0 →
        (∀ i, i < 20 → 0 ≤ (taos_prox_poll s.sat_als (s.prox_cal_info i) (bus i)).1) →
        s.sat_prox < 2 ^ 16 → cal_mean bus + 1500 < 2 ^ 16 →
        (taos_ioctl_PROX_CALIBRATE s bus).2.cfg.prox_threshold_lo
          < (taos_ioctl_PROX_CALIBRATE s bus).2.cfg.prox_threshold_hi) ∧
      (0 ≤ b.wr_max → 0 ≤ b.wr_min →
        ((taos_prox_poll s.sat_als s.prox_cur_info b.poll).2.prox_data > s.cfg.prox_threshold_hi →
          ((taos_prox_work s b).chip.prx_minthresh < (taos_prox_work s b).chip.prx_maxthresh
            ↔ s.cfg.prox_threshold_lo < s.sat_prox)) ∧
        (¬ (taos_prox_poll s.sat_als s.prox_cur_info b.poll).2.prox_data > s.cfg.prox_threshold_hi →
          (taos_prox_poll s.sat_als s.prox_cur_info b.poll).2.prox_data < s.cfg.prox_threshold_lo →
          s.cfg.prox_threshold_lo < s.cfg.prox_threshold_hi →
          (taos_prox_work s b).chip.prx_minthresh < (taos_prox_work s b).chip.prx_maxthresh)) := by
  refine ⟨?_, fun hon hok hsat hfit => ?_, fun hmax hmin => ⟨fun h => ?_, fun h1 h2 h3 => ?_⟩⟩
  · rw [config_set_cfg]
    exact ⟨rfl, rfl, Iff.rfl⟩
  · obtain ⟨h1, h2⟩ := calibrate_thresholds s bus hon hok
    by_cases hf : (cal_mean bus + 1000) % 2 ^ 16 < s.sat_prox * 12 / 100
    · rw [h1, h2, if_pos hf, if_pos hf]
      clear h1 h2
      have ha : 8342 ≤ s.sat_prox := by omega
      have hq : s.sat_prox * 12 / 100 + 1 ≤ s.sat_prox * 15 / 100 := by
        rw [Nat.le_div_iff_mul_le (by decide), Nat.add_mul]
        have := Nat.div_mul_le_self (s.sat_prox * 12) 100
        omega
      have hd : s.sat_prox * 12 / 100 < 2 ^ 16 := by omega
      have he : s.sat_prox * 15 / 100 < 2 ^ 16 := by omega
      rw [Nat.mod_eq_of_lt hd, Nat.mod_eq_of_lt he]
      omega
    · rw [h1, h2, if_neg hf, if_neg hf]
      omega
  · have wmax : ∀ o v, write_word b.wr_max o v = v := fun o v => by
      simp [write_word, not_lt.mpr hmax]
    have wmin : ∀ o v, write_word b.wr_min o v = v := fun o v => by
      simp [write_word, not_lt.mpr hmin]
    simp [taos_prox_work, h, wmax, wmin]
  · have wmax : ∀ o v, write_word b.wr_max o v = v := fun o v => by
      simp [write_word, not_lt.mpr hmax]
    have wmin : ∀ o v, write_word b.wr_min o v = v := fun o v => by
      simp [write_word, not_lt.mpr hmin]
    simp [taos_prox_work, h1, h2, wmax, wmin]
    omega

/-- Witness of C10 (amended): a calibration run with twenty readings of 3000 on the
probe state stores `lo = 4000 < hi = 4500`. -/
theorem threshold_order_witness :
    drv0.prox_on ≠ 0 ∧ drv0.sat_prox < 2 ^ 16 ∧
      cal_mean (fun _ => prox_burst 100 3000) + 1500 < 2 ^ 16 ∧
      (taos_ioctl_PROX_CALIBRATE drv0 (fun _ => prox_burst 100 3000)).2.cfg.prox_threshold_lo
        < (taos_ioctl_PROX_CALIBRATE drv0 (fun _ => prox_burst 100 3000)).2.cfg.prox_threshold_hi ∧
      ((taos_prox_work drv0 ⟨prox_burst 100 9600, 0, 0, 0, 0, 0⟩).chip.prx_minthresh
          < (taos_prox_work drv0 ⟨prox_burst 100 9600, 0, 0, 0, 0, 0⟩).chip.prx_maxthresh
        ↔ drv0.cfg.prox_threshold_lo < drv0.sat_prox) :=
  ⟨by decide, by decide, by decide,
   (threshold_order drv0 cfg0 (fun _ => prox_burst 100 3000)
      ⟨prox_burst 100 9600, 0, 0, 0, 0, 0⟩).2.1 (by decide)
      (fixture_polls_ok _ (by decide)) (by decide) (by decide),
   ((threshold_order drv0 cfg0 (fun _ => prox_burst 100 3000)
      ⟨prox_burst 100 9600, 0, 0, 0, 0, 0⟩).2.2 (by decide) (by decide)).1 (by decide)⟩

end Taos

namespace Taos

/-! ## Transport failures and disabled modes -/

/-- C11, evaluated at failing inputs.  Light pass: with `g_nlux = 41000` published and
the first register select failing with -5, `taos_get_lux` returns -5 and
`taos_als_work` publishes it: `g_nlux = -5`.  Proximity pass right after
`TAOS_IOCTL_PROX_ON` with the first select of the poll failing with -5: the poll
returns -5, the pass goes on with the old reading 0 and the device `lo` threshold
goes from 9000 to 0. -/
theorem pass_transport_failure :
    (taos_get_lux { drv0 with g_nlux := 41000 } ⟨fun _ => ⟨-5, 0⟩, 0, 0⟩).1 = -5 ∧
      (taos_als_work { drv0 with g_nlux := 41000 } ⟨⟨fun _ => ⟨-5, 0⟩, 0, 0⟩, 0⟩).g_nlux = -5 ∧
      (taos_prox_poll drv_on.sat_als drv_on.prox_cur_info (fun _ => ⟨-5, 0⟩)).1 = -5 ∧
      drv_on.chip.prx_minthresh = 9000 ∧
      (taos_prox_work drv_on ⟨fun _ => ⟨-5, 0⟩, 0, 0, 0, 0, 0⟩).chip.prx_minthresh = 0 := by
  refine ⟨by decide, by decide, by decide, by decide, by decide⟩

/-- C12, refuted as stated: with `prox_on = 0` a proximity pass with reading 9600 changes
`ProximityInfo` from (0, 0, far) to (100, 9600, near) and the device `hi` threshold
from 9500 to 18432; with `light_on = 0` a light pass with the sample (1000, 200)
changes the published lux from 0 to 41000 and the ALS window from (0, 0) to
(1200, 800). -/
theorem disabled_pass_counterexample :
    ({ drv_on with prox_on := 0 } : Driver).prox_on = 0 ∧
      ({ drv_on with prox_on := 0 } : Driver).prox_cur_info = ⟨0, 0, 0⟩ ∧
      (taos_prox_work { drv_on with prox_on := 0 }
        ⟨prox_burst 100 9600, 0, 0, 0, 0, 0⟩).prox_cur_info = ⟨100, 9600, 1⟩ ∧
      ({ drv_on with prox_on := 0 } : Driver).chip.prx_maxthresh = 9500 ∧
      (taos_prox_work { drv_on with prox_on := 0 }
        ⟨prox_burst 100 9600, 0, 0, 0, 0, 0⟩).chip.prx_maxthresh = 18432 ∧
      drv0.light_on = 0 ∧ drv0.g_nlux = 0 ∧
      (taos_als_work drv0 ⟨⟨als_burst 1000 200, 0, 0⟩, 0⟩).g_nlux = 41000 ∧
      drv0.chip.als_maxthresh = 0 ∧ drv0.chip.als_minthresh = 0 ∧
      (taos_als_work drv0 ⟨⟨als_burst 1000 200, 0, 0⟩, 0⟩).chip.als_maxthresh = 1200 ∧
      (taos_als_work drv0 ⟨⟨als_burst 1000 200, 0, 0⟩, 0⟩).chip.als_minthresh = 800 := by
  refine ⟨by decide, by decide, by decide, by decide, by decide, by decide, by decide,
    by decide, by decide, by decide, by decide, by decide⟩

/-- C12, amended: neither pass reads the mode flags.  A proximity pass has the same
effect whatever `prox_on` is, a light pass the same effect whatever `light_on` is,
and both leave the two flags as they are. -/
theorem pass_ignores_mode (s : Driver) (v w : Int) (pb : ProxBus) (ab : AlsBus) :
    taos_prox_work { s with prox_on := v } pb = { taos_prox_work s pb with prox_on := v } ∧
      taos_als_work { s with light_on := w } ab = { taos_als_work s ab with light_on := w } ∧
      (taos_prox_work s pb).prox_on = s.prox_on ∧
      (taos_prox_work s pb).light_on = s.light_on ∧
      (taos_als_work s ab).prox_on = s.prox_on ∧
      (taos_als_work s ab).light_on = s.light_on := by
  refine ⟨?_, ?_, ?_, ?_, ?_, ?_⟩
  · simp only [taos_prox_work]
    split_ifs <;> rfl
  · simp only [taos_als_work, taos_get_lux]
    cases read_loop ab.lux.ch 4 0 0 <;> rfl
  · simp only [taos_prox_work]
    split_ifs <;> rfl
  · simp only [taos_prox_work]
    split_ifs <;> rfl
  · simp only [taos_als_work, taos_get_lux]
    cases read_loop ab.lux.ch 4 0 0 <;> rfl
  · simp only [taos_als_work, taos_get_lux]
    cases read_loop ab.lux.ch 4 0 0 <;> rfl

/-- C13, evaluated at a failing input: right after `TAOS_IOCTL_PROX_ON` a cycle reads
clear = 60000, above `sat_als * 80 / 100 = 14745`.  `taos_prox_poll` returns `-ENODATA`
and leaves the proximity reading at 0, but the pass goes on with that reading and
the device `lo` threshold goes from 9000 to 0. -/
theorem saturated_cycle :
    60000 > drv_on.sat_als * 80 / 100 ∧
      (taos_prox_poll drv_on.sat_als drv_on.prox_cur_info (prox_burst 60000 9600)).1 = -ENODATA ∧
      (taos_prox_poll drv_on.sat_als drv_on.prox_cur_info (prox_burst 60000 9600)).2.prox_data
        = drv_on.prox_cur_info.prox_data ∧
      drv_on.chip.prx_minthresh = 9000 ∧
      (taos_prox_work drv_on ⟨prox_burst 60000 9600, 0, 0, 0, 0, 0⟩).chip.prx_minthresh = 0 ∧
      (taos_prox_work drv_on ⟨prox_burst 60000 9600, 0, 0, 0, 0, 0⟩).chip ≠ drv_on.chip := by
  refine ⟨by decide, by decide, by decide, by decide, by decide, by decide⟩

/-! ## Proximity calibration without proximity mode -/

/-- C16: with `prox_on = 0`, `TAOS_IOCTL_PROX_CALIBRATE` returns `-EPERM` (-1) and the
state it was called in, whatever the bus would have delivered: no poll is made and
the configured thresholds stay. -/
theorem calibrate_needs_prox_on (s : Driver) (bus : Nat → Nat → RegRead)
    (h : s.prox_on = 0) :
    taos_ioctl_PROX_CALIBRATE s bus = (-EPERM, s) ∧ EPERM = 1 ∧
      (taos_ioctl_PROX_CALIBRATE s bus).2.cfg.prox_threshold_hi = s.cfg.prox_threshold_hi ∧
      (taos_ioctl_PROX_CALIBRATE s bus).2.cfg.prox_threshold_lo = s.cfg.prox_threshold_lo := by
  have e : taos_ioctl_PROX_CALIBRATE s bus = (-EPERM, s) := by
    simp [taos_ioctl_PROX_CALIBRATE, h]
  rw [e]
  exact ⟨rfl, rfl, rfl, rfl⟩

/-- Witness of C16: the probe state with proximity mode off. -/
theorem calibrate_needs_prox_on_witness :
    ({ drv0 with prox_on := 0 } : Driver).prox_on = 0 ∧
      (taos_ioctl_PROX_CALIBRATE { drv0 with prox_on := 0 } (fun _ => prox_burst 100 3000)).1
        = -1 ∧
      (taos_ioctl_PROX_CALIBRATE { drv0 with prox_on := 0 }
        (fun _ => prox_burst 100 3000)).2.cfg.prox_threshold_hi = 9500 :=
  ⟨rfl,
   congrArg Prod.fst (calibrate_needs_prox_on { drv0 with prox_on := 0 }
     (fun _ => prox_burst 100 3000) rfl).1,
   (calibrate_needs_prox_on { drv0 with prox_on := 0 }
     (fun _ => prox_burst 100 3000) rfl).2.2.1⟩

/-! ## Interrupt dispatcher -/

set_option maxRecDepth 100000 in
/-- On a byte the masks `0x10` and `0x20` test bit 4 and bit 5. -/
theorem status_bits : ∀ n, n < 256 →
    ((n &&& 0x10 ≠ 0 ↔ n.testBit 4 = true) ∧ (n &&& 0x20 ≠ 0 ↔ n.testBit 5 = true)) := by
  decide

/-- The dispatcher leaves the interrupt line as it found it. -/
theorem interrupt_irq_depth (q : Dispatch) (r : RegRead) :
    (taos_interrupt q r).irq_depth = q.irq_depth := by
  simp only [taos_interrupt]
  split_ifs <;> simp

/-- The scheduling calls of a dispatch whose register select succeeded, by the bits of
the stored status word. -/
theorem interrupt_routing (q : Dispatch) (r : RegRead) (hsel : 0 ≤ r.sel) :
    (taos_interrupt q r).als_work
        = q.als_work + (if (r.val % 2 ^ 16).toNat &&& 0x10 ≠ 0 ∧ (r.val % 2 ^ 16).toNat &&& 0x20 = 0
            then 1 else 0) ∧
      (taos_interrupt q r).prox_work
        = q.prox_work + (if (r.val % 2 ^ 16).toNat &&& 0x20 ≠ 0 then 1 else 0) := by
  simp only [taos_interrupt, if_neg (not_lt.mpr hsel)]
  split_ifs <;> simp_all

/-- C14: for every status byte read successfully (select and read without error,
value in 0..255) the dispatch issues one scheduling call for the light pass exactly
when bit 4 (`0x10`) is set and bit 5 (`0x20`) is clear, and none otherwise; one
scheduling call for the proximity pass exactly when bit 5 is set, and none otherwise;
it never issues both, and it leaves the interrupt line unmasked as it found it. -/
theorem dispatch_routing (q : Dispatch) (r : RegRead)
    (hsel : 0 ≤ r.sel) (h0 : 0 ≤ r.val) (h1 : r.val < 256) :
    (taos_interrupt q r).als_work
        = q.als_work + (if r.val.toNat.testBit 4 = true ∧ r.val.toNat.testBit 5 = false
            then 1 else 0) ∧
      (taos_interrupt q r).prox_work
        = q.prox_work + (if r.val.toNat.testBit 5 = true then 1 else 0) ∧
      ¬ ((taos_interrupt q r).als_work = q.als_work + 1 ∧
          (taos_interrupt q r).prox_work = q.prox_work + 1) ∧
      (taos_interrupt q r).irq_depth = q.irq_depth := by
  obtain ⟨ha, hp⟩ := interrupt_routing q r hsel
  have hs : (r.val % 2 ^ 16).toNat = r.val.toNat := by omega
  have hn : r.val.toNat < 256 := by omega
  obtain ⟨b4, b5⟩ := status_bits r.val.toNat hn
  rw [hs] at ha hp
  have e5 : (r.val.toNat &&& 0x20 = 0) ↔ r.val.toNat.testBit 5 = false := by
    rw [← Bool.not_eq_true, ← b5]; exact not_not.symm
  rw [ha, hp]
  simp only [b4, b5, e5]
  refine ⟨trivial, trivial, ?_, interrupt_irq_depth q r⟩
  cases h5 : r.val.toNat.testBit 5 <;> simp

/-- Witness of C14: status `0x10` schedules the light pass only. -/
theorem dispatch_routing_witness :
    (taos_interrupt ⟨0, 0, 0⟩ ⟨0, 0x10⟩).als_work = 1 ∧
      (taos_interrupt ⟨0, 0, 0⟩ ⟨0, 0x10⟩).prox_work = 0 :=
  ⟨((dispatch_routing ⟨0, 0, 0⟩ ⟨0, 0x10⟩ (by decide) (by decide) (by decide)).1).trans
     (by decide),
   ((dispatch_routing ⟨0, 0, 0⟩ ⟨0, 0x10⟩ (by decide) (by decide) (by decide)).2.1).trans
     (by decide)⟩

/-- C15, refuted as stated: the register select succeeds, the byte read fails with -5;
the error code is stored as status `0xFFFB` and a proximity pass is scheduled. -/
theorem dispatch_read_failure_counterexample :
    (0 : Int) ≤ (⟨0, -5⟩ : RegRead).sel ∧ (⟨0, -5⟩ : RegRead).val < 0 ∧
      ((⟨0, -5⟩ : RegRead).val % 2 ^ 16).toNat = 0xFFFB ∧
      taos_interrupt ⟨0, 0, 0⟩ ⟨0, -5⟩ = ⟨0, 0, 1⟩ ∧
      taos_interrupt ⟨0, 0, 0⟩ ⟨0, -5⟩ ≠ ⟨0, 0, 0⟩ := by
  refine ⟨by decide, by decide, by decide, by decide, by decide⟩

/-- C15, amended: when the register select of the status read fails, the dispatch
changes nothing (no pass is scheduled).  The signal is unmasked again on return in
every case.  The result of the byte read is not tested: after a successful select a
failed read is dispatched exactly like a successful read of the 16-bit word its
error code truncates to. -/
theorem dispatch_read_failure (q : Dispatch) (r : RegRead) :
    (r.sel < 0 → taos_interrupt q r = q) ∧
      (taos_interrupt q r).irq_depth = q.irq_depth ∧
      (0 ≤ r.sel →
        taos_interrupt q r = taos_interrupt q ⟨0, ((r.val % 2 ^ 16).toNat : Int)⟩) := by
  refine ⟨fun h => ?_, interrupt_irq_depth q r, fun h => ?_⟩
  · simp [taos_interrupt, h]
  · have e : (((r.val % 2 ^ 16).toNat : Int) % 2 ^ 16).toNat = (r.val % 2 ^ 16).toNat := by
      omega
    simp only [taos_interrupt, if_neg (not_lt.mpr h), e]
    simp

/-- Witness of C15 (amended): a failing select with -5 leaves the dispatcher state as it
is, whatever the read would have delivered. -/
theorem dispatch_read_failure_witness :
    (⟨-5, 0x30⟩ : RegRead).sel < 0 ∧ taos_interrupt ⟨0, 0, 0⟩ ⟨-5, 0x30⟩ = ⟨0, 0, 0⟩ :=
  ⟨by decide, (dispatch_read_failure ⟨0, 0, 0⟩ ⟨-5, 0x30⟩).1 (by decide)⟩

/-! ## The lux formula -/

/-- The gain selector always picks one of the four table gains. -/
theorem gain_table_cases (g : Nat) :
    taos_triton_gain_table.getD (g &&& 3) 0 = 1 ∨ taos_triton_gain_table.getD (g &&& 3) 0 = 8 ∨
      taos_triton_gain_table.getD (g &&& 3) 0 = 16 ∨
      taos_triton_gain_table.getD (g &&& 3) 0 = 120 := by
  have h : g &&& 3 ≤ 3 := Nat.and_le_right
  interval_cases g &&& 3 <;> simp [taos_triton_gain_table]

/-- The table walk on `TritonFN_lux_data`, threshold by threshold. -/
theorem lux_walk_table (r : Nat) :
    lux_walk TritonFN_lux_data r
      = if r ≤ 9830 then ⟨9830, 8320, 15360⟩
        else if r ≤ 12452 then ⟨12452, 10554, 22797⟩
        else if r ≤ 14746 then ⟨14746, 6234, 11430⟩
        else if r ≤ 17695 then ⟨17695, 3968, 6400⟩
        else ⟨0, 0, 0⟩ := by
  simp only [lux_walk, TritonFN_lux_data]
  split_ifs <;> first | rfl | omega

/-- For the entry the walk selects, the ir product does not exceed the clear product. -/
theorem coeff_order (c i : Nat) (hc : 0 < c)
    (hp : (lux_walk TritonFN_lux_data ((i <<< 15) / c)).ratio ≠ 0) :
    i * (lux_walk TritonFN_lux_data ((i <<< 15) / c)).ir
      ≤ c * (lux_walk TritonFN_lux_data ((i <<< 15) / c)).clear := by
  rw [lux_walk_table] at hp ⊢
  have hs : i <<< 15 = i * 32768 := by rw [Nat.shiftLeft_eq]
  rw [hs] at hp ⊢
  have key : ∀ R, i * 32768 / c ≤ R → i * 32768 < (R + 1) * c := fun R h =>
    (Nat.div_lt_iff_lt_mul hc).mp (Nat.lt_succ_of_le h)
  split_ifs at hp ⊢ with h1 h2 h3 h4
  · have := key _ h1; simp only; omega
  · have := key _ h2; simp only; omega
  · have := key _ h3; simp only; omega
  · have := key _ h4; simp only; omega
  · exact absurd rfl hp

/-- Both scaled channels are 16-bit values. -/
theorem lux_scale_lt (sf c i : Nat) :
    (lux_scale sf c i).1 < 2 ^ 16 ∧ (lux_scale sf c i).2 < 2 ^ 16 := by
  unfold lux_scale
  split_ifs <;> exact ⟨Nat.mod_lt _ (by decide), Nat.mod_lt _ (by decide)⟩

/-- The coefficients of the entry the walk selects are bounded by the largest of the table. -/
theorem lux_walk_bounds (r : Nat) :
    (lux_walk TritonFN_lux_data r).clear ≤ 10554 ∧ (lux_walk TritonFN_lux_data r).ir ≤ 22797 := by
  rw [lux_walk_table]
  split_ifs <;> exact ⟨by decide, by decide⟩

/-- On an unsaturated sample with non-zero scaled clear, a non-zero 16-bit denominator
and a table entry selected, the `u32` computation of `lux_calc` never wraps and gives
the lux formula. -/
theorem lux_calc_formula (cfg : taos_cfg) (t : time_scale_factor) (c i : Nat)
    (hnum : t.numerator = 1) (hden : 0 < t.denominator) (hdb : t.denominator < 2 ^ 16)
    (hc : (lux_scale cfg.scale_factor c i).1 < t.saturation)
    (hi : (lux_scale cfg.scale_factor c i).2 < t.saturation)
    (h0 : (lux_scale cfg.scale_factor c i).1 ≠ 0)
    (hp : (lux_walk TritonFN_lux_data (((lux_scale cfg.scale_factor c i).2 <<< 15)
      / (lux_scale cfg.scale_factor c i).1)).ratio ≠ 0) :
    lux_calc cfg t c i
      = lux_formula (lux_scale cfg.scale_factor c i).1 (lux_scale cfg.scale_factor c i).2
          t.denominator (taos_triton_gain_table.getD (cfg.gain &&& 3) 0)
          (lux_walk TritonFN_lux_data (((lux_scale cfg.scale_factor c i).2 <<< 15)
            / (lux_scale cfg.scale_factor c i).1)).clear
          (lux_walk TritonFN_lux_data (((lux_scale cfg.scale_factor c i).2 <<< 15)
            / (lux_scale cfg.scale_factor c i).1)).ir := by
  obtain ⟨hC, hI⟩ := lux_scale_lt cfg.scale_factor c i
  have hord := coeff_order _ _ (Nat.pos_of_ne_zero h0) hp
  unfold lux_calc
  rcases hsc : lux_scale cfg.scale_factor c i with ⟨C, I⟩
  simp only [hsc] at hC hI hc hi h0 hp hord ⊢
  obtain ⟨hpc, hpi⟩ := lux_walk_bounds ((I <<< 15) / C)
  generalize lux_walk TritonFN_lux_data ((I <<< 15) / C) = p at hp hord hpc hpi ⊢
  have hg := gain_table_cases cfg.gain
  generalize taos_triton_gain_table.getD (cfg.gain &&& 3) 0 = g at hg ⊢
  have hg1 : ¬ (g = 0 ∨ g > 127) := by omega
  have hA : C * p.clear ≤ 65535 * 10554 := Nat.mul_le_mul (by omega) hpc
  rw [if_neg (by omega), if_neg (by omega), if_neg h0, if_neg hg1, if_neg (by omega), if_neg hp]
  simp only [lux_formula]
  rw [Nat.mul_comm I p.ir] at hord ⊢
  rw [Nat.mul_comm C p.clear] at hord hA ⊢
  generalize p.clear * C = A at hord hA ⊢
  generalize p.ir * I = B at hord ⊢
  have e1 : ((((A : Nat) : Int) - ((B : Nat) : Int)) % 2 ^ 32).toNat = A - B := by omega
  have e2 : t.denominator >>> 1 = t.denominator / 2 := by
    rw [Nat.shiftRight_eq_div_pow]
  have e3 : g >>> 1 = g / 2 := by
    rw [Nat.shiftRight_eq_div_pow]
  have e4 : (A - B + t.denominator / 2) % 2 ^ 32 = A - B + t.denominator / 2 :=
    Nat.mod_eq_of_lt (by omega)
  have hq : (A - B + t.denominator / 2) / t.denominator ≤ A - B + t.denominator / 2 :=
    Nat.div_le_self _ _
  have e5 : ((A - B + t.denominator / 2) / t.denominator * 1) % 2 ^ 32
      = (A - B + t.denominator / 2) / t.denominator * 1 :=
    Nat.mod_eq_of_lt (by omega)
  have e6 : ((A - B + t.denominator / 2) / t.denominator * 1 + g / 2) % 2 ^ 32
      = (A - B + t.denominator / 2) / t.denominator * 1 + g / 2 :=
    Nat.mod_eq_of_lt (by omega)
  simp only [e1, e2, e3, e4, hnum, e5, e6, lux_formula, TAOS_SCALE_MILLILUX, TAOS_MAX_LUX]
  congr 1
  split_ifs <;> omega

/-- C19: for a sample read successfully that is unsaturated, has a non-zero scaled clear
and whose ratio selects a table entry `p`, with a 16-bit integration time and a
non-zero `den = (als_time + 25) / 50`, `taos_get_lux` returns
`min (((((clear * p.clear - ir * p.ir) + den / 2) / den) * 1 + gain / 2) / gain >> 3) 65535000`
over exact integers (the subtraction does not go below zero), `clear` and `ir` being
the scaled channels and `gain` one of 1, 8, 16, 120 picked by the gain selector.
For clear = 1000, ir = 200, `als_time = 100`, gain selector 1, scale factor 1 the
result is 41000. -/
theorem get_lux_formula (s : Driver) (b : LuxBus)
    (hrd : ∀ i, i < 4 → 0 ≤ (b.ch i).sel)
    (hw : s.cfg.als_time < 2 ^ 16) (hden : 0 < (s.cfg.als_time + 25) / 50)
    (hc : (lux_scale s.cfg.scale_factor (chan_word b.ch 0 1) (chan_word b.ch 2 3)).1
      < min (300 * s.cfg.als_time) 65535)
    (hi : (lux_scale s.cfg.scale_factor (chan_word b.ch 0 1) (chan_word b.ch 2 3)).2
      < min (300 * s.cfg.als_time) 65535)
    (h0 : (lux_scale s.cfg.scale_factor (chan_word b.ch 0 1) (chan_word b.ch 2 3)).1 ≠ 0)
    (hp : (lux_walk TritonFN_lux_data
      (((lux_scale s.cfg.scale_factor (chan_word b.ch 0 1) (chan_word b.ch 2 3)).2 <<< 15)
        / (lux_scale s.cfg.scale_factor (chan_word b.ch 0 1) (chan_word b.ch 2 3)).1)).ratio ≠ 0) :
    (taos_get_lux s b).1
        = lux_formula (lux_scale s.cfg.scale_factor (chan_word b.ch 0 1) (chan_word b.ch 2 3)).1
            (lux_scale s.cfg.scale_factor (chan_word b.ch 0 1) (chan_word b.ch 2 3)).2
            ((s.cfg.als_time + 25) / 50) (taos_triton_gain_table.getD (s.cfg.gain &&& 3) 0)
            (lux_walk TritonFN_lux_data
              (((lux_scale s.cfg.scale_factor (chan_word b.ch 0 1) (chan_word b.ch 2 3)).2 <<< 15)
                / (lux_scale s.cfg.scale_factor (chan_word b.ch 0 1) (chan_word b.ch 2 3)).1)).clear
            (lux_walk TritonFN_lux_data
              (((lux_scale s.cfg.scale_factor (chan_word b.ch 0 1) (chan_word b.ch 2 3)).2 <<< 15)
                / (lux_scale s.cfg.scale_factor (chan_word b.ch 0 1) (chan_word b.ch 2 3)).1)).ir ∧
      (lux_scale s.cfg.scale_factor (chan_word b.ch 0 1) (chan_word b.ch 2 3)).2
          * (lux_walk TritonFN_lux_data
              (((lux_scale s.cfg.scale_factor (chan_word b.ch 0 1) (chan_word b.ch 2 3)).2 <<< 15)
                / (lux_scale s.cfg.scale_factor (chan_word b.ch 0 1) (chan_word b.ch 2 3)).1)).ir
        ≤ (lux_scale s.cfg.scale_factor (chan_word b.ch 0 1) (chan_word b.ch 2 3)).1
          * (lux_walk TritonFN_lux_data
              (((lux_scale s.cfg.scale_factor (chan_word b.ch 0 1) (chan_word b.ch 2 3)).2 <<< 15)
                / (lux_scale s.cfg.scale_factor (chan_word b.ch 0 1) (chan_word b.ch 2 3)).1)).clear ∧
      (taos_triton_gain_table.getD (s.cfg.gain &&& 3) 0 = 1 ∨
        taos_triton_gain_table.getD (s.cfg.gain &&& 3) 0 = 8 ∨
        taos_triton_gain_table.getD (s.cfg.gain &&& 3) 0 = 16 ∨
        taos_triton_gain_table.getD (s.cfg.gain &&& 3) 0 = 120) ∧
      (taos_get_lux drv0 ⟨als_burst 1000 200, 0, 0⟩).1 = 41000 := by
  refine ⟨?_, coeff_order _ _ (Nat.pos_of_ne_zero h0) hp, gain_table_cases _, by decide⟩
  rw [get_lux_ret s b hrd]
  have hd : (s.cfg.als_time + 25) / 50 % 2 ^ 16 = (s.cfg.als_time + 25) / 50 := by omega
  rw [hd]
  exact lux_calc_formula s.cfg ⟨1, (s.cfg.als_time + 25) / 50, min (300 * s.cfg.als_time) 65535⟩
    _ _ rfl hden (by simp only; omega) hc hi h0 hp

/-- Witness of C19: the probe state and the sample clear = 1000, ir = 200: entry
(9830, 8320, 15360), `den = 2`, gain 8, result 41000. -/
theorem get_lux_formula_witness :
    lux_walk TritonFN_lux_data ((200 <<< 15) / 1000) = ⟨9830, 8320, 15360⟩ ∧
      (taos_get_lux drv0 ⟨als_burst 1000 200, 0, 0⟩).1 = lux_formula 1000 200 2 8 8320 15360 ∧
      lux_formula 1000 200 2 8 8320 15360 = 41000 :=
  ⟨by decide,
   (get_lux_formula drv0 ⟨als_burst 1000 200, 0, 0⟩ (fun i _ => burst_of_sel _ i)
      (by decide) (by decide) (by decide) (by decide) (by decide) (by decide)).1.trans
      (by decide),
   by decide⟩

/-! ## Table selection -/

/-- The walk stops at the first entry whose threshold is the ratio or more. -/
theorem lux_walk_first_reaching (r : Nat) :
    lux_walk TritonFN_lux_data r = (first_reaching r).getD ⟨0, 0, 0⟩ := by
  rw [lux_walk_table]
  simp only [first_reaching, TritonFN_lux_data, List.find?]
  by_cases h1 : r ≤ 9830
  · simp [h1]
  · by_cases h2 : r ≤ 12452
    · simp [h1, h2]
    · by_cases h3 : r ≤ 14746
      · simp [h1, h2, h3]
      · by_cases h4 : r ≤ 17695
        · simp [h1, h2, h3, h4]
        · simp [h1, h2, h3, h4]

/-- An entry found by `first_reaching` is no sentinel. -/
theorem first_reaching_ratio (r : Nat) (e : lux_data) (h : first_reaching r = some e) :
    e.ratio ≠ 0 := by
  have := List.find?_some h
  simp only [decide_eq_true_eq] at this
  exact this.1

/-- Past the table the computing tail returns 0. -/
theorem lux_calc_beyond (cfg : taos_cfg) (t : time_scale_factor) (c i : Nat)
    (hden : 0 < t.denominator)
    (hc : (lux_scale cfg.scale_factor c i).1 < t.saturation)
    (hi : (lux_scale cfg.scale_factor c i).2 < t.saturation)
    (h0 : (lux_scale cfg.scale_factor c i).1 ≠ 0)
    (hp : (lux_walk TritonFN_lux_data (((lux_scale cfg.scale_factor c i).2 <<< 15)
      / (lux_scale cfg.scale_factor c i).1)).ratio = 0) :
    lux_calc cfg t c i = 0 := by
  unfold lux_calc
  rcases hsc : lux_scale cfg.scale_factor c i with ⟨C, I⟩
  simp only [hsc] at hc hi h0 hp ⊢
  have hg := gain_table_cases cfg.gain
  generalize taos_triton_gain_table.getD (cfg.gain &&& 3) 0 = g at hg ⊢
  have hg1 : ¬ (g = 0 ∨ g > 127) := by omega
  rw [if_neg (by omega), if_neg (by omega), if_neg h0, if_neg hg1, if_neg (by omega), if_pos hp]

/-- C20, refuted as stated: the sample clear = 16384, ir = 4915 on the probe state is read
successfully, is unsaturated and has ratio exactly 9830.  The first entry whose
threshold exceeds 9830 is (12452, 10554, 22797), whose coefficients would give
475542; `taos_get_lux` returns 475160, the value of the entry (9830, 8320, 15360),
whose threshold equals the ratio. -/
theorem get_lux_selection_counterexample :
    lux_scale drv0.cfg.scale_factor (chan_word (als_burst 16384 4915) 0 1)
        (chan_word (als_burst 16384 4915) 2 3) = (16384, 4915) ∧
      (4915 <<< 15) / 16384 = 9830 ∧
      first_exceeding 9830 = some ⟨12452, 10554, 22797⟩ ∧
      lux_formula 16384 4915 2 8 10554 22797 = 475542 ∧
      (taos_get_lux drv0 ⟨als_burst 16384 4915, 0, 0⟩).1 = 475160 ∧
      lux_walk TritonFN_lux_data 9830 = ⟨9830, 8320, 15360⟩ ∧
      lux_formula 16384 4915 2 8 8320 15360 = 475160 := by
  refine ⟨by decide, by decide, by decide, by decide, by decide, by decide, by decide⟩

/-- C20, amended: for a sample read successfully, with scaled channels `C`, `I`, that is
unsaturated and has `C ≠ 0` (16-bit integration time, non-zero `den`), let
`r = (I << 15) / C`.  The table walk yields the first entry of the ratio table, in
table order, whose threshold is `r` or more (greater than or equal to `r`);
`taos_get_lux` returns the lux formula with the coefficients of that entry, and
returns 0 if no entry has a threshold of `r` or more. -/
theorem get_lux_selection (s : Driver) (b : LuxBus) (C I : Nat)
    (hrd : ∀ i, i < 4 → 0 ≤ (b.ch i).sel)
    (hsc : lux_scale s.cfg.scale_factor (chan_word b.ch 0 1) (chan_word b.ch 2 3) = (C, I))
    (hw : s.cfg.als_time < 2 ^ 16) (hden : 0 < (s.cfg.als_time + 25) / 50)
    (hc : C < min (300 * s.cfg.als_time) 65535) (hi : I < min (300 * s.cfg.als_time) 65535)
    (h0 : C ≠ 0) :
    lux_walk TritonFN_lux_data ((I <<< 15) / C)
        = (first_reaching ((I <<< 15) / C)).getD ⟨0, 0, 0⟩ ∧
      (∀ e, first_reaching ((I <<< 15) / C) = some e →
        (taos_get_lux s b).1
          = lux_formula C I ((s.cfg.als_time + 25) / 50)
              (taos_triton_gain_table.getD (s.cfg.gain &&& 3) 0) e.clear e.ir) ∧
      (first_reaching ((I <<< 15) / C) = none → (taos_get_lux s b).1 = 0) := by
  have hd : (s.cfg.als_time + 25) / 50 % 2 ^ 16 = (s.cfg.als_time + 25) / 50 := by omega
  have hw' := lux_walk_first_reaching ((I <<< 15) / C)
  refine ⟨hw', fun e he => ?_, fun hn => ?_⟩
  · rw [he] at hw'
    have hr := first_reaching_ratio _ e he
    rw [get_lux_ret s b hrd, hd]
    have h := lux_calc_formula s.cfg
      ⟨1, (s.cfg.als_time + 25) / 50, min (300 * s.cfg.als_time) 65535⟩
      (chan_word b.ch 0 1) (chan_word b.ch 2 3) rfl hden (by simp only; omega)
      (by rw [hsc]; exact hc) (by rw [hsc]; exact hi) (by rw [hsc]; exact h0)
      (by rw [hsc]; simp only; rw [hw']; exact hr)
    rw [h, hsc]
    simp only
    rw [hw']
    rfl
  · rw [hn] at hw'
    rw [get_lux_ret s b hrd, hd]
    exact lux_calc_beyond s.cfg
      ⟨1, (s.cfg.als_time + 25) / 50, min (300 * s.cfg.als_time) 65535⟩
      (chan_word b.ch 0 1) (chan_word b.ch 2 3) hden
      (by rw [hsc]; exact hc) (by rw [hsc]; exact hi) (by rw [hsc]; exact h0)
      (by rw [hsc]; simp only; rw [hw']; rfl)

/-- Witness of C20 (amended): the sample clear = 16384, ir = 4915 with ratio 9830 selects
the entry (9830, 8320, 15360) and gives 475160. -/
theorem get_lux_selection_witness :
    first_reaching ((4915 <<< 15) / 16384) = some ⟨9830, 8320, 15360⟩ ∧
      (taos_get_lux drv0 ⟨als_burst 16384 4915, 0, 0⟩).1
        = lux_formula 16384 4915 2 8 8320 15360 :=
  ⟨by decide,
   (get_lux_selection drv0 ⟨als_burst 16384 4915, 0, 0⟩ 16384 4915
      (fun i _ => burst_of_sel _ i) (by decide) (by decide) (by decide) (by decide)
      (by decide) (by decide)).2.1 ⟨9830, 8320, 15360⟩ (by decide)⟩

/-! ## Light calibration -/

/-- The lux engine does not touch the configuration. -/
theorem get_lux_cfg (s : Driver) (b : LuxBus) : (taos_get_lux s b).2.cfg = s.cfg := by
  simp only [taos_get_lux]
  cases read_loop b.ch 4 0 0 <;> rfl

/-- C17, refuted as stated.  With the probe configuration (target 300000) and both
register tests passed: the dark sample (0, 0) is a non-error lux reading 0, for which
the division has no result; the sample (10, 2) reads 410 lux, and the call returns
46954, not 300000 * 512 / 410 = 374634, which does not fit the 16-bit gain trim. -/
theorem calibrate_light_counterexample :
    (taos_get_lux drv0 ⟨als_burst 0 0, 0, 0⟩).1 = 0 ∧
      (taos_ioctl_ALS_CALIBRATE drv0 ⟨⟨0, 7⟩, ⟨0, 1⟩, ⟨als_burst 0 0, 0, 0⟩⟩).isNone = true ∧
      (taos_get_lux drv0 ⟨als_burst 10 2, 0, 0⟩).1 = 410 ∧
      (taos_ioctl_ALS_CALIBRATE drv0 ⟨⟨0, 7⟩, ⟨0, 1⟩, ⟨als_burst 10 2, 0, 0⟩⟩).map Prod.fst
        = some 46954 ∧
      300000 * 512 / 410 = 374634 := by
  refine ⟨by decide, by decide, by decide, by decide, by decide⟩

/-- C17, amended: when both register tests pass and `taos_get_lux` returns a strictly
positive `lux`, `TAOS_IOCTL_ALS_CALIBRATE` returns and stores as gain trim
`((t * 512 mod 2^32) / lux) mod 2^16`, `t` being the calibration target; this is
`t * 512 / lux` whenever `t * 512` fits 32 bits and the quotient fits 16 bits. -/
theorem calibrate_light_gain (s : Driver) (b : GainBus)
    (hc : 0 ≤ b.cntrl.sel) (hcv : u8 b.cntrl.val &&& 0x07 = 0x07)
    (hs : 0 ≤ b.status.sel) (hsv : u8 b.status.val &&& 0x01 = 0x01)
    (hlux : 0 < (taos_get_lux s b.lux).1) :
    (taos_ioctl_ALS_CALIBRATE s b).map Prod.fst
        = some (((s.cfg.calibrate_target * 512 % 2 ^ 32
            / (taos_get_lux s b.lux).1.toNat % 2 ^ 16 : Nat) : Int)) ∧
      (taos_ioctl_ALS_CALIBRATE s b).map (fun r => r.2.cfg.gain_trim)
        = some (s.cfg.calibrate_target * 512 % 2 ^ 32
            / (taos_get_lux s b.lux).1.toNat % 2 ^ 16) ∧
      (s.cfg.calibrate_target * 512 < 2 ^ 32 →
        s.cfg.calibrate_target * 512 / (taos_get_lux s b.lux).1.toNat < 2 ^ 16 →
        s.cfg.calibrate_target * 512 % 2 ^ 32 / (taos_get_lux s b.lux).1.toNat % 2 ^ 16
          = s.cfg.calibrate_target * 512 / (taos_get_lux s b.lux).1.toNat) := by
  have h1 : ¬ (taos_get_lux s b.lux).1 < 0 := by omega
  have h2 : ¬ (taos_get_lux s b.lux).1 = 0 := by omega
  refine ⟨?_, ?_, fun ha hb => ?_⟩
  · simp [taos_ioctl_ALS_CALIBRATE, not_lt.mpr hc, not_lt.mpr hs, hcv, hsv, h1, h2, get_lux_cfg]
  · simp [taos_ioctl_ALS_CALIBRATE, not_lt.mpr hc, not_lt.mpr hs, hcv, hsv, h1, h2, get_lux_cfg]
  · rw [Nat.mod_eq_of_lt ha, Nat.mod_eq_of_lt hb]

/-- Witness of C17 (amended): the probe state, both register tests passed, the sample
(1000, 200) with 41000 lux: the gain trim is 300000 * 512 / 41000 = 3746. -/
theorem calibrate_light_gain_witness :
    (0 : Int) < (taos_get_lux drv0 ⟨als_burst 1000 200, 0, 0⟩).1 ∧
      (taos_ioctl_ALS_CALIBRATE drv0 ⟨⟨0, 7⟩, ⟨0, 1⟩, ⟨als_burst 1000 200, 0, 0⟩⟩).map Prod.fst
        = some 3746 ∧
      300000 * 512 / 41000 = 3746 :=
  ⟨by decide,
   (calibrate_light_gain drv0 ⟨⟨0, 7⟩, ⟨0, 1⟩, ⟨als_burst 1000 200, 0, 0⟩⟩
      (by decide) (by decide) (by decide) (by decide) (by decide)).1.trans (by decide),
   by decide⟩

/-! ## The ALS interrupt window -/

/-- A channel word is a 16-bit value. -/
theorem chan_word_lt (rd : Nat → RegRead) (lo hi : Nat) : chan_word rd lo hi < 2 ^ 16 := by
  unfold chan_word
  refine Nat.or_lt_two_pow (Nat.mod_lt _ (by decide)) ?_
  have h : chdata rd lo < 256 := by
    unfold chdata u8
    omega
  omega

/-- The window `taos_get_lux` leaves behind once the four channel registers were read:
both globals, and both device registers behind their word writes. -/
theorem get_lux_thresholds (s : Driver) (b : LuxBus) (hrd : ∀ i, i < 4 → 0 ≤ (b.ch i).sel) :
    (taos_get_lux s b).2.als_intr_threshold_hi_param
        = (chan_word b.ch 0 1 + chan_word b.ch 0 1 / 5) % 2 ^ 16 ∧
      (taos_get_lux s b).2.als_intr_threshold_lo_param
        = (chan_word b.ch 0 1 - chan_word b.ch 0 1 / 5) % 2 ^ 16 ∧
      (taos_get_lux s b).2.chip.als_maxthresh
        = write_word b.wr_max s.chip.als_maxthresh
            ((chan_word b.ch 0 1 + chan_word b.ch 0 1 / 5) % 2 ^ 16) ∧
      (taos_get_lux s b).2.chip.als_minthresh
        = write_word b.wr_min s.chip.als_minthresh
            ((chan_word b.ch 0 1 - chan_word b.ch 0 1 / 5) % 2 ^ 16) := by
  obtain ⟨r, hr, -⟩ := read_loop_ok b.ch 4 0 0 (fun j _ h2 => hrd j (by omega))
  simp only [taos_get_lux, hr, and_self]

/-- C21, refuted as stated: the raw clear reading 60000 (ir = 100, read successfully,
both word writes successful) gives `hi = 6464`, not `60000 + 60000 / 5 = 72000`: the
16-bit threshold wraps, and `c <= hi` fails.  The `lo` threshold is 48000. -/
theorem als_window_counterexample :
    chan_word (als_burst 60000 100) 0 1 = 60000 ∧
      (taos_get_lux drv0 ⟨als_burst 60000 100, 0, 0⟩).2.als_intr_threshold_hi_param = 6464 ∧
      (taos_get_lux drv0 ⟨als_burst 60000 100, 0, 0⟩).2.chip.als_maxthresh = 6464 ∧
      (taos_get_lux drv0 ⟨als_burst 60000 100, 0, 0⟩).2.als_intr_threshold_hi_param
        ≠ 60000 + 60000 / 5 ∧
      ¬ 60000 ≤ (taos_get_lux drv0 ⟨als_burst 60000 100, 0, 0⟩).2.als_intr_threshold_hi_param ∧
      (taos_get_lux drv0 ⟨als_burst 60000 100, 0, 0⟩).2.als_intr_threshold_lo_param = 48000 := by
  refine ⟨by decide, by decide, by decide, by decide, by decide, by decide⟩

/-- C21, amended: for every raw clear reading `c` (read successfully), `taos_get_lux`
sets the ALS interrupt thresholds to `lo = c - c / 5` and `hi = (c + c / 5) mod 2^16`,
from the raw clear value before the channel swap (the ir reading plays no part), so
that `lo <= c`; a word write that succeeds puts the same value in the device
register.  When `c + c / 5` is within 16 bits, that is `c <= 54613`, `hi` is
`c + c / 5` as an exact integer and `lo <= c <= hi`. -/
theorem als_window (s : Driver) (b : LuxBus) (c : Nat)
    (hrd : ∀ i, i < 4 → 0 ≤ (b.ch i).sel)
    (hc : chan_word b.ch 0 1 = c) :
    (taos_get_lux s b).2.als_intr_threshold_lo_param = c - c / 5 ∧
      (taos_get_lux s b).2.als_intr_threshold_hi_param = (c + c / 5) % 2 ^ 16 ∧
      (taos_get_lux s b).2.als_intr_threshold_lo_param ≤ c ∧
      (0 ≤ b.wr_min → (taos_get_lux s b).2.chip.als_minthresh = c - c / 5) ∧
      (0 ≤ b.wr_max → (taos_get_lux s b).2.chip.als_maxthresh = (c + c / 5) % 2 ^ 16) ∧
      (c + c / 5 < 2 ^ 16 →
        (taos_get_lux s b).2.als_intr_threshold_hi_param = c + c / 5 ∧
        c ≤ (taos_get_lux s b).2.als_intr_threshold_hi_param ∧
        (0 ≤ b.wr_max → (taos_get_lux s b).2.chip.als_maxthresh = c + c / 5)) ∧
      (c + c / 5 < 2 ^ 16 ↔ c ≤ 54613) ∧
      c < 2 ^ 16 := by
  obtain ⟨h1, h2, h3, h4⟩ := get_lux_thresholds s b hrd
  have hlt : c < 2 ^ 16 := hc ▸ chan_word_lt b.ch 0 1
  rw [hc] at h1 h2 h3 h4
  have e2 : (c - c / 5) % 2 ^ 16 = c - c / 5 := Nat.mod_eq_of_lt (by omega)
  rw [e2] at h2 h4
  refine ⟨h2, h1, by omega, fun hw => ?_, fun hw => ?_, fun hfit => ?_, by omega, hlt⟩
  · rw [h4]; simp [write_word, not_lt.mpr hw]
  · rw [h3]; simp [write_word, not_lt.mpr hw]
  · have e1 : (c + c / 5) % 2 ^ 16 = c + c / 5 := Nat.mod_eq_of_lt hfit
    rw [e1] at h1 h3
    refine ⟨h1, by omega, fun hw => ?_⟩
    rw [h3]; simp [write_word, not_lt.mpr hw]

/-- Witness of C21 (amended): the sample clear = 200, ir = 1000 (ir above clear, so the
channels are swapped afterwards) gives the window 240, 160 around the raw clear 200;
the sample clear = 60000 gives `lo = 48000` and the wrapped `hi = 6464`. -/
theorem als_window_witness :
    chan_word (als_burst 200 1000) 0 1 = 200 ∧ 200 + 200 / 5 < 2 ^ 16 ∧
      (taos_get_lux drv0 ⟨als_burst 200 1000, 0, 0⟩).2.als_intr_threshold_hi_param = 240 ∧
      (taos_get_lux drv0 ⟨als_burst 200 1000, 0, 0⟩).2.als_intr_threshold_lo_param = 160 ∧
      (taos_get_lux drv0 ⟨als_burst 200 1000, 0, 0⟩).2.chip.als_maxthresh = 240 ∧
      chan_word (als_burst 60000 1000) 0 1 = 60000 ∧
      (taos_get_lux drv0 ⟨als_burst 60000 1000, 0, 0⟩).2.als_intr_threshold_lo_param = 48000 ∧
      (taos_get_lux drv0 ⟨als_burst 60000 1000, 0, 0⟩).2.als_intr_threshold_hi_param
        = (60000 + 60000 / 5) % 2 ^ 16 :=
  ⟨by decide, by decide,
   ((als_window drv0 ⟨als_burst 200 1000, 0, 0⟩ 200 (fun i _ => burst_of_sel _ i)
      (by decide)).2.2.2.2.2.1 (by decide)).1,
   (als_window drv0 ⟨als_burst 200 1000, 0, 0⟩ 200 (fun i _ => burst_of_sel _ i)
      (by decide)).1,
   ((als_window drv0 ⟨als_burst 200 1000, 0, 0⟩ 200 (fun i _ => burst_of_sel _ i)
      (by decide)).2.2.2.2.2.1 (by decide)).2.2 (by decide),
   by decide,
   (als_window drv0 ⟨als_burst 60000 1000, 0, 0⟩ 60000 (fun i _ => burst_of_sel _ i)
      (by decide)).1,
   (als_window drv0 ⟨als_burst 60000 1000, 0, 0⟩ 60000 (fun i _ => burst_of_sel _ i)
      (by decide)).2.1⟩

/-! ## The saturation constants -/

/-- C22, refuted as stated: `TAOS_IOCTL_CONFIG_SET` with a well-formed record whose
`prox_int_time` is 0 and `prox_adc_time` is 192 stores these times and sets
`sat_als = 0` and `sat_prox = 0`, not `(256 - 0) << 10 = 262144` and
`(256 - 192) << 10 = 65536`: the constants are 16-bit globals. -/
theorem config_set_saturation_counterexample :
    ({ cfg0 with prox_int_time := 0, prox_adc_time := 192 } : taos_cfg).wf ∧
      (taos_ioctl_CONFIG_SET drv0
        { cfg0 with prox_int_time := 0, prox_adc_time := 192 } 0).2.cfg.prox_int_time = 0 ∧
      (taos_ioctl_CONFIG_SET drv0
        { cfg0 with prox_int_time := 0, prox_adc_time := 192 } 0).2.cfg.prox_adc_time = 192 ∧
      (taos_ioctl_CONFIG_SET drv0
        { cfg0 with prox_int_time := 0, prox_adc_time := 192 } 0).2.sat_als = 0 ∧
      (256 - 0) <<< 10 = 262144 ∧
      (taos_ioctl_CONFIG_SET drv0
        { cfg0 with prox_int_time := 0, prox_adc_time := 192 } 0).2.sat_prox = 0 ∧
      (256 - 192) <<< 10 = 65536 := by
  refine ⟨by simp [taos_cfg.wf, cfg0], by decide, by decide, by decide, by decide, by decide,
    by decide⟩

/-- C22, amended: after every `TAOS_IOCTL_CONFIG_SET`, with `prox_int_time` and
`prox_adc_time` the stored 8-bit times, `sat_als` is
`((256 - prox_int_time) << 10) mod 2^16` and `sat_prox` is
`((256 - prox_adc_time) << 10) mod 2^16`; each equals the unreduced
`(256 - x) << 10` exactly when its time `x` is 193 or more. -/
theorem config_set_saturation (s : Driver) (arg : taos_cfg)
    (hi : arg.prox_int_time < 2 ^ 8) (ha : arg.prox_adc_time < 2 ^ 8) :
    (taos_ioctl_CONFIG_SET s arg 0).2.cfg.prox_int_time = arg.prox_int_time ∧
      (taos_ioctl_CONFIG_SET s arg 0).2.cfg.prox_adc_time = arg.prox_adc_time ∧
      (taos_ioctl_CONFIG_SET s arg 0).2.sat_als
        = ((256 - (taos_ioctl_CONFIG_SET s arg 0).2.cfg.prox_int_time) <<< 10) % 2 ^ 16 ∧
      (taos_ioctl_CONFIG_SET s arg 0).2.sat_prox
        = ((256 - (taos_ioctl_CONFIG_SET s arg 0).2.cfg.prox_adc_time) <<< 10) % 2 ^ 16 ∧
      ((taos_ioctl_CONFIG_SET s arg 0).2.sat_als
          = (256 - (taos_ioctl_CONFIG_SET s arg 0).2.cfg.prox_int_time) <<< 10
        ↔ 193 ≤ (taos_ioctl_CONFIG_SET s arg 0).2.cfg.prox_int_time) ∧
      ((taos_ioctl_CONFIG_SET s arg 0).2.sat_prox
          = (256 - (taos_ioctl_CONFIG_SET s arg 0).2.cfg.prox_adc_time) <<< 10
        ↔ 193 ≤ (taos_ioctl_CONFIG_SET s arg 0).2.cfg.prox_adc_time) := by
  rw [config_set_state s arg]
  simp only [Nat.shiftLeft_eq]
  refine ⟨trivial, trivial, trivial, trivial, ?_, ?_⟩ <;> omega

/-- Witness of C22 (amended): the probe record, both times `0xEE = 238`, gives
`sat_als = sat_prox = 18 << 10 = 18432`. -/
theorem config_set_saturation_witness :
    cfg0.prox_int_time < 2 ^ 8 ∧ cfg0.prox_adc_time < 2 ^ 8 ∧
      (taos_ioctl_CONFIG_SET drv0 cfg0 0).2.sat_als = 18432 ∧
      (taos_ioctl_CONFIG_SET drv0 cfg0 0).2.sat_prox = 18432 :=
  ⟨by decide, by decide,
   (config_set_saturation drv0 cfg0 (by decide) (by decide)).2.2.1.trans (by decide),
   (config_set_saturation drv0 cfg0 (by decide) (by decide)).2.2.2.1.trans (by decide)⟩

/-! ## The unsigned subtraction -/

/-- The sentinel carries zero coefficients. -/
theorem lux_walk_sentinel (r : Nat) (h : (lux_walk TritonFN_lux_data r).ratio = 0) :
    (lux_walk TritonFN_lux_data r).clear = 0 ∧ (lux_walk TritonFN_lux_data r).ir = 0 := by
  rw [lux_walk_table] at h ⊢
  split_ifs at h ⊢
  exact ⟨rfl, rfl⟩

/-- C23: for scaled 16-bit channels `C`, `I` that reach the table walk (`C ≠ 0`) and
the entry `p` the walk yields, `I * p.ir <= C * p.clear`, and the `u32` difference
`C * p.clear - I * p.ir` is the exact integer difference: the subtraction never
wraps.  Hence, for a sample read successfully that is unsaturated (16-bit
integration time, non-zero `den`), the value `taos_get_lux` returns lies in
`0 .. 65535000`, and is the exact lux formula when an entry is selected. -/
theorem lux_subtraction_exact (s : Driver) (b : LuxBus) (C I : Nat)
    (hrd : ∀ i, i < 4 → 0 ≤ (b.ch i).sel)
    (hsc : lux_scale s.cfg.scale_factor (chan_word b.ch 0 1) (chan_word b.ch 2 3) = (C, I))
    (hw : s.cfg.als_time < 2 ^ 16) (hden : 0 < (s.cfg.als_time + 25) / 50)
    (hc : C < min (300 * s.cfg.als_time) 65535) (hi : I < min (300 * s.cfg.als_time) 65535)
    (h0 : C ≠ 0) :
    I * (lux_walk TritonFN_lux_data ((I <<< 15) / C)).ir
        ≤ C * (lux_walk TritonFN_lux_data ((I <<< 15) / C)).clear ∧
      (((C * (lux_walk TritonFN_lux_data ((I <<< 15) / C)).clear : Nat) : Int)
          - ((I * (lux_walk TritonFN_lux_data ((I <<< 15) / C)).ir : Nat) : Int)) % 2 ^ 32
        = ((C * (lux_walk TritonFN_lux_data ((I <<< 15) / C)).clear : Nat) : Int)
          - ((I * (lux_walk TritonFN_lux_data ((I <<< 15) / C)).ir : Nat) : Int) ∧
      0 ≤ (taos_get_lux s b).1 ∧ (taos_get_lux s b).1 ≤ 65535000 ∧
      ((lux_walk TritonFN_lux_data ((I <<< 15) / C)).ratio ≠ 0 →
        (taos_get_lux s b).1
          = lux_formula C I ((s.cfg.als_time + 25) / 50)
              (taos_triton_gain_table.getD (s.cfg.gain &&& 3) 0)
              (lux_walk TritonFN_lux_data ((I <<< 15) / C)).clear
              (lux_walk TritonFN_lux_data ((I <<< 15) / C)).ir) := by
  have hd : (s.cfg.als_time + 25) / 50 % 2 ^ 16 = (s.cfg.als_time + 25) / 50 := by omega
  have hord : I * (lux_walk TritonFN_lux_data ((I <<< 15) / C)).ir
      ≤ C * (lux_walk TritonFN_lux_data ((I <<< 15) / C)).clear := by
    by_cases hp : (lux_walk TritonFN_lux_data ((I <<< 15) / C)).ratio = 0
    · obtain ⟨e1, e2⟩ := lux_walk_sentinel _ hp
      rw [e1, e2]
      exact Nat.le_refl _
    · exact coeff_order C I (Nat.pos_of_ne_zero h0) hp
  have hform : (lux_walk TritonFN_lux_data ((I <<< 15) / C)).ratio ≠ 0 →
      (taos_get_lux s b).1
        = lux_formula C I ((s.cfg.als_time + 25) / 50)
            (taos_triton_gain_table.getD (s.cfg.gain &&& 3) 0)
            (lux_walk TritonFN_lux_data ((I <<< 15) / C)).clear
            (lux_walk TritonFN_lux_data ((I <<< 15) / C)).ir := by
    intro hp
    rw [get_lux_ret s b hrd, hd]
    have h := lux_calc_formula s.cfg
      ⟨1, (s.cfg.als_time + 25) / 50, min (300 * s.cfg.als_time) 65535⟩
      (chan_word b.ch 0 1) (chan_word b.ch 2 3) rfl hden (by simp only; omega)
      (by rw [hsc]; exact hc) (by rw [hsc]; exact hi) (by rw [hsc]; exact h0)
      (by rw [hsc]; exact hp)
    rw [h, hsc]
  have hbd := lux_walk_bounds ((I <<< 15) / C)
  have hA : C * (lux_walk TritonFN_lux_data ((I <<< 15) / C)).clear ≤ 65535 * 10554 :=
    Nat.mul_le_mul (by omega) hbd.1
  refine ⟨hord, ?_, ?_, ?_, hform⟩
  · generalize C * (lux_walk TritonFN_lux_data ((I <<< 15) / C)).clear = A at hord hA
    generalize I * (lux_walk TritonFN_lux_data ((I <<< 15) / C)).ir = B at hord
    omega
  · by_cases hp : (lux_walk TritonFN_lux_data ((I <<< 15) / C)).ratio = 0
    · rw [get_lux_ret s b hrd, hd]
      rw [lux_calc_beyond s.cfg
        ⟨1, (s.cfg.als_time + 25) / 50, min (300 * s.cfg.als_time) 65535⟩
        (chan_word b.ch 0 1) (chan_word b.ch 2 3) hden
        (by rw [hsc]; exact hc) (by rw [hsc]; exact hi) (by rw [hsc]; exact h0)
        (by rw [hsc]; exact hp)]
    · rw [hform hp]
      exact Int.natCast_nonneg _
  · by_cases hp : (lux_walk TritonFN_lux_data ((I <<< 15) / C)).ratio = 0
    · rw [get_lux_ret s b hrd, hd]
      rw [lux_calc_beyond s.cfg
        ⟨1, (s.cfg.als_time + 25) / 50, min (300 * s.cfg.als_time) 65535⟩
        (chan_word b.ch 0 1) (chan_word b.ch 2 3) hden
        (by rw [hsc]; exact hc) (by rw [hsc]; exact hi) (by rw [hsc]; exact h0)
        (by rw [hsc]; exact hp)]
      decide
    · rw [hform hp]
      have : lux_formula C I ((s.cfg.als_time + 25) / 50)
          (taos_triton_gain_table.getD (s.cfg.gain &&& 3) 0)
          (lux_walk TritonFN_lux_data ((I <<< 15) / C)).clear
          (lux_walk TritonFN_lux_data ((I <<< 15) / C)).ir ≤ 65535000 := by
        unfold lux_formula
        exact Nat.min_le_right _ _
      exact_mod_cast this

/-- Witness of C23: the probe state and the sample clear = 1000, ir = 200:
`200 * 15360 <= 1000 * 8320` and the result 41000. -/
theorem lux_subtraction_exact_witness :
    lux_scale drv0.cfg.scale_factor (chan_word (als_burst 1000 200) 0 1)
        (chan_word (als_burst 1000 200) 2 3) = (1000, 200) ∧
      lux_walk TritonFN_lux_data ((200 <<< 15) / 1000) = ⟨9830, 8320, 15360⟩ ∧
      200 * (lux_walk TritonFN_lux_data ((200 <<< 15) / 1000)).ir
        ≤ 1000 * (lux_walk TritonFN_lux_data ((200 <<< 15) / 1000)).clear ∧
      0 ≤ (taos_get_lux drv0 ⟨als_burst 1000 200, 0, 0⟩).1 :=
  ⟨by decide, by decide,
   (lux_subtraction_exact drv0 ⟨als_burst 1000 200, 0, 0⟩ 1000 200
      (fun i _ => burst_of_sel _ i) (by decide) (by decide) (by decide) (by decide)
      (by decide) (by decide)).1,
   (lux_subtraction_exact drv0 ⟨als_burst 1000 200, 0, 0⟩ 1000 200
      (fun i _ => burst_of_sel _ i) (by decide) (by decide) (by decide) (by decide)
      (by decide) (by decide)).2.2.1⟩

end Taos
